import Mathlib

/-!
Verification of the indian-stock-screener core engine against its
natural-language specification.

The Python sources are shallowly embedded: floats are modelled as exact
rationals (ℚ), Python dicts as association lists or update functions,
dates as explicit year/month/day records ordered through a day-count
function, and fallible operations as `Option`.  Every definition mirrors
the corresponding function of the repository; definitions that follow the
specification's words instead (for refinement comparisons) carry a `spec`
prefix and say so in their doc comment.
-/

namespace StockScreener

/-- Round-half-to-even on rationals: the rounding mode used by Python's
built-in `round` (model of `round(x, ndigits)` at the integer step). -/
def pyRoundHalfEven (x : ℚ) : ℤ :=
  let f : ℤ := ⌊x⌋
  let r : ℚ := x - f
  if r < 1/2 then f
  else if 1/2 < r then f + 1
  else if f % 2 = 0 then f else f + 1

/-- Model of Python `round(x, 2)`. -/
def round2 (x : ℚ) : ℚ := (pyRoundHalfEven (x * 100) : ℚ) / 100

/-- `src/engine/ratios.py` lines 157-161 (helper nested in `compute_ratios`):
division guarded by truthiness of the denominator and the 0.001 epsilon,
rounding the quotient to two decimals. -/
def safe_div (numerator denominator : ℚ) (default : Option ℚ) : Option ℚ :=
  if denominator ≠ 0 ∧ |denominator| > 1/1000 then
    some (round2 (numerator / denominator))
  else default

theorem safe_div_eq_ite (n d : ℚ) :
    safe_div n d none = if |d| ≤ 1/1000 then none else some (round2 (n / d)) := by
  unfold safe_div
  rcases le_or_lt |d| (1/1000) with h | h
  · have hcond : ¬(d ≠ 0 ∧ |d| > 1/1000) := by
      rintro ⟨-, hgt⟩; exact absurd h (not_le.mpr hgt)
    rw [if_neg hcond, if_pos h]
  · have hd : d ≠ 0 := by
      intro h0
      rw [h0, abs_zero] at h
      norm_num at h
    rw [if_pos ⟨hd, h⟩, if_neg (not_le.mpr h)]

/-- C4: `safe_div` is total (modelled as a total function), returns null
exactly when |d| ≤ 0.001 and `round(n/d, 2)` otherwise; in particular
`safe_div 10 0 = null`, `safe_div 10 0.0001 = null`, `safe_div 10 2 = 5.0`. -/
theorem C4_safe_div_correct :
    (∀ n d : ℚ, safe_div n d none =
      if |d| ≤ 1/1000 then none else some (round2 (n / d))) ∧
    safe_div 10 0 none = none ∧
    safe_div 10 (1/10000) none = none ∧
    safe_div 10 2 none = some 5 := by
  refine ⟨safe_div_eq_ite, ?_, ?_, ?_⟩
  · rw [safe_div_eq_ite]; norm_num
  · rw [safe_div_eq_ite, abs_of_pos (by norm_num : (0:ℚ) < 1/10000)]; norm_num
  · rw [safe_div_eq_ite, abs_of_pos (by norm_num : (0:ℚ) < 2)]
    norm_num [round2, pyRoundHalfEven]

/-! ## Field normalizer (`src/scrapers/utils/normalizer.py`) -/

/-- ASCII model of Python `str.lower()` (all alias strings in the tables are
ASCII, so only the 26 Latin capitals are affected). -/
def pyLower (c : Char) : Char :=
  if c = 'A' then 'a' else if c = 'B' then 'b' else if c = 'C' then 'c'
  else if c = 'D' then 'd' else if c = 'E' then 'e' else if c = 'F' then 'f'
  else if c = 'G' then 'g' else if c = 'H' then 'h' else if c = 'I' then 'i'
  else if c = 'J' then 'j' else if c = 'K' then 'k' else if c = 'L' then 'l'
  else if c = 'M' then 'm' else if c = 'N' then 'n' else if c = 'O' then 'o'
  else if c = 'P' then 'p' else if c = 'Q' then 'q' else if c = 'R' then 'r'
  else if c = 'S' then 's' else if c = 'T' then 't' else if c = 'U' then 'u'
  else if c = 'V' then 'v' else if c = 'W' then 'w' else if c = 'X' then 'x'
  else if c = 'Y' then 'y' else if c = 'Z' then 'z' else c

/-- The whitespace characters stripped by Python `str.strip()` (ASCII part). -/
def isPySpace (c : Char) : Bool :=
  c = ' ' || c = '\t' || c = '\n' || c = '\r' || c = '\x0b' || c = '\x0c'

/-- Model of Python `str.strip()` on the character list of a string. -/
def pyStrip (l : List Char) : List Char :=
  ((l.dropWhile isPySpace).reverse.dropWhile isPySpace).reverse

/-- Model of Python `str.replace(a, b)` for single characters. -/
def repl (a b : Char) (l : List Char) : List Char :=
  l.map (fun c => if c = a then b else c)

/-- `raw_name.strip().lower().replace("_", " ").replace("-", " ")`
(normalizer.py line 431). -/
def normRaw (s : String) : List Char :=
  repl '-' ' ' (repl '_' ' ' ((pyStrip s.data).map pyLower))

/-- `variant.lower().replace("_", " ")` (normalizer.py line 441); the
variant side does not replace hyphens. -/
def normVariant (v : String) : List Char :=
  repl '_' ' ' (v.data.map pyLower)

/-- Lowercasing of a whole string (used to state case-insensitivity). -/
def lowerStr (s : String) : String := ⟨s.data.map pyLower⟩

/-- `PL_FIELD_MAP` of normalizer.py lines 11-171, in source order. -/
def PL_FIELD_MAP : List (String × List String) := [
  ("revenue", ["Revenue", "RevenueFromOperations", "Revenue From Operations", "revenue_from_operations", "IncomeFromOperations", "Income From Operations", "Sales", "Net Sales", "Turnover", "Total Revenue From Operations", "GrossRevenue", "Gross Revenue", "re_RevenueFromOperations", "RevenueFromOperationsGross"]),
  ("other_income", ["OtherIncome", "Other Income", "other_income", "re_OtherIncome", "OtherOperatingRevenue"]),
  ("total_income", ["TotalIncome", "Total Income", "total_income", "TotalRevenueFromOperations", "TotalRevenue", "Total Revenue"]),
  ("raw_material_cost", ["CostOfMaterialsConsumed", "Cost Of Materials Consumed", "RawMaterialCost", "Raw Material Cost", "CostOfRawMaterialsConsumed", "re_CostOfMaterialsConsumed"]),
  ("purchase_stock_in_trade", ["PurchaseOfStockInTrade", "Purchase Of Stock In Trade", "PurchasesOfStockInTrade", "re_PurchasesOfStockInTrade"]),
  ("inventory_change", ["ChangesInInventories", "Changes In Inventories", "InventoryChange", "ChangesInInventoriesOfFinishedGoods", "re_ChangesInInventoriesOfFinishedGoodsWorkInProgressAndStockInTrade"]),
  ("employee_cost", ["EmployeeBenefitExpense", "Employee Benefit Expense", "EmployeeCost", "Employee Cost", "Staff Cost", "EmployeeBenefitsExpense", "re_EmployeeBenefitExpense"]),
  ("depreciation", ["DepreciationAndAmortisation", "Depreciation And Amortisation", "Depreciation", "DepreciationAndAmortizationExpense", "DepreciationDepletionAndAmortisationExpense", "re_DepreciationAndAmortisationExpense"]),
  ("interest_expense", ["FinanceCosts", "Finance Costs", "InterestExpense", "Interest", "Interest Expense", "FinanceCost", "re_FinanceCosts"]),
  ("other_expenses", ["OtherExpenses", "Other Expenses", "re_OtherExpenses"]),
  ("total_expenses", ["TotalExpenses", "Total Expenses", "total_expenses", "re_TotalExpenses"]),
  ("operating_profit", ["OperatingProfit", "Operating Profit", "EBITDA", "ProfitBeforeDepreciationInterestAndTax", "re_ProfitBeforeExceptionalItemsAndTax"]),
  ("profit_before_exceptional", ["ProfitBeforeExceptionalItems", "Profit Before Exceptional Items", "ProfitBeforeExceptionalItemsAndTax", "re_ProfitBeforeExceptionalItemsAndTax"]),
  ("exceptional_items", ["ExceptionalItems", "Exceptional Items", "re_ExceptionalItems"]),
  ("profit_before_tax", ["ProfitBeforeTax", "Profit Before Tax", "profit_before_tax", "PBT", "re_ProfitBeforeTax"]),
  ("tax_expense", ["TaxExpense", "Tax Expense", "IncomeTaxExpense", "tax_expense", "re_TaxExpense", "CurrentTax", "DeferredTax"]),
  ("net_profit", ["ProfitForThePeriod", "Profit For The Period", "NetProfit", "Net Profit", "net_profit", "ProfitAfterTax", "PAT", "re_ProfitForThePeriod", "ProfitLossForThePeriod", "ProfitLossForPeriodFromContinuingOperations"]),
  ("eps_basic", ["EarningsPerShareBasic", "Basic EPS", "BasicEPS", "eps_basic", "EarningsPerEquityShareBasic", "re_BasicEPS", "BasicEarningsPerShare"]),
  ("eps_diluted", ["EarningsPerShareDiluted", "Diluted EPS", "DilutedEPS", "eps_diluted", "EarningsPerEquityShareDiluted", "re_DilutedEPS", "DilutedEarningsPerShare"]),
  ("dividend_per_share", ["DividendPerShare", "Dividend Per Share", "DPS"])]

/-- `BS_FIELD_MAP` of normalizer.py lines 174-364, in source order. -/
def BS_FIELD_MAP : List (String × List String) := [
  ("share_capital", ["ShareCapital", "Share Capital", "Equity Share Capital", "EquityShareCapital", "PaidUpCapital", "bs_EquityShareCapital"]),
  ("reserves_surplus", ["ReservesAndSurplus", "Reserves And Surplus", "Reserves & Surplus", "OtherEquity", "Other Equity", "bs_OtherEquity", "RetainedEarnings"]),
  ("total_equity", ["TotalEquity", "Total Equity", "ShareholdersEquity", "Total Shareholders Equity", "Shareholders Funds", "ShareholdersFunds", "bs_TotalEquity", "EquityAttributableToOwnersOfParent"]),
  ("minority_interest", ["MinorityInterest", "Minority Interest", "NonControllingInterests", "Non Controlling Interests", "bs_NonControllingInterests"]),
  ("long_term_borrowings", ["LongTermBorrowings", "Long Term Borrowings", "NonCurrentBorrowings", "Non Current Borrowings", "bs_NonCurrentBorrowings", "LongTermDebt"]),
  ("short_term_borrowings", ["ShortTermBorrowings", "Short Term Borrowings", "CurrentBorrowings", "Current Borrowings", "bs_CurrentBorrowings", "ShortTermDebt"]),
  ("total_borrowings", ["TotalBorrowings", "Total Borrowings", "Total Debt", "TotalDebt"]),
  ("other_non_current_liabilities", ["OtherNonCurrentLiabilities", "Other Non Current Liabilities", "bs_OtherNonCurrentLiabilities"]),
  ("total_non_current_liabilities", ["TotalNonCurrentLiabilities", "Total Non Current Liabilities", "NonCurrentLiabilities", "bs_TotalNonCurrentLiabilities"]),
  ("trade_payables", ["TradePayables", "Trade Payables", "Creditors", "SundryCreditors", "bs_TradePayables"]),
  ("other_current_liabilities", ["OtherCurrentLiabilities", "Other Current Liabilities", "bs_OtherCurrentLiabilities"]),
  ("total_current_liabilities", ["TotalCurrentLiabilities", "Total Current Liabilities", "CurrentLiabilities", "bs_TotalCurrentLiabilities"]),
  ("total_liabilities", ["TotalLiabilities", "Total Liabilities", "bs_TotalLiabilities"]),
  ("fixed_assets", ["PropertyPlantAndEquipment", "Property Plant And Equipment", "FixedAssets", "Fixed Assets", "TangibleAssets", "bs_PropertyPlantAndEquipment", "NetBlock", "GrossBlock"]),
  ("cwip", ["CapitalWorkInProgress", "Capital Work In Progress", "CWIP", "bs_CapitalWorkInProgress"]),
  ("intangible_assets", ["IntangibleAssets", "Intangible Assets", "OtherIntangibleAssets", "bs_OtherIntangibleAssets"]),
  ("investments", ["Investments", "TotalInvestments", "NonCurrentInvestments", "bs_NonCurrentInvestments", "bs_CurrentInvestments"]),
  ("non_current_investments", ["NonCurrentInvestments", "Non Current Investments", "bs_NonCurrentInvestments", "LongTermInvestments"]),
  ("current_investments", ["CurrentInvestments", "Current Investments", "bs_CurrentInvestments", "ShortTermInvestments"]),
  ("total_non_current_assets", ["TotalNonCurrentAssets", "Total Non Current Assets", "NonCurrentAssets", "bs_TotalNonCurrentAssets"]),
  ("inventory", ["Inventories", "Inventory", "Stock", "bs_Inventories"]),
  ("trade_receivables", ["TradeReceivables", "Trade Receivables", "Debtors", "SundryDebtors", "bs_TradeReceivables"]),
  ("cash_and_equivalents", ["CashAndCashEquivalents", "Cash And Cash Equivalents", "CashAndBankBalances", "Cash And Bank Balances", "bs_CashAndCashEquivalents", "Cash"]),
  ("other_current_assets", ["OtherCurrentAssets", "Other Current Assets", "bs_OtherCurrentAssets"]),
  ("total_current_assets", ["TotalCurrentAssets", "Total Current Assets", "CurrentAssets", "bs_TotalCurrentAssets"]),
  ("total_assets", ["TotalAssets", "Total Assets", "total_assets", "bs_TotalAssets"]),
  ("goodwill", ["Goodwill", "bs_Goodwill"]),
  ("deferred_tax_assets", ["DeferredTaxAssets", "Deferred Tax Assets", "bs_DeferredTaxAssets"]),
  ("deferred_tax_liabilities", ["DeferredTaxLiabilities", "Deferred Tax Liabilities", "bs_DeferredTaxLiabilities"])]

/-- `CF_FIELD_MAP` of normalizer.py lines 367-413, in source order. -/
def CF_FIELD_MAP : List (String × List String) := [
  ("cfo", ["CashFlowFromOperatingActivities", "Cash Flow From Operating Activities", "NetCashFromOperatingActivities", "CFO", "cf_CashFlowsFromOperatingActivities", "NetCashFlowFromOperatingActivities"]),
  ("cfi", ["CashFlowFromInvestingActivities", "Cash Flow From Investing Activities", "NetCashFromInvestingActivities", "CFI", "cf_CashFlowsFromInvestingActivities", "NetCashFlowFromInvestingActivities"]),
  ("cff", ["CashFlowFromFinancingActivities", "Cash Flow From Financing Activities", "NetCashFromFinancingActivities", "CFF", "cf_CashFlowsFromFinancingActivities", "NetCashFlowFromFinancingActivities"]),
  ("net_cash_flow", ["NetCashFlow", "Net Cash Flow", "NetIncreaseDecreaseInCashAndCashEquivalents", "cf_NetIncreaseDecreaseInCashAndCashEquivalents"]),
  ("depreciation_in_cf", ["DepreciationAndAmortisation", "cf_DepreciationAndAmortisationExpense"]),
  ("capex", ["CapitalExpenditure", "Capex", "PurchaseOfPropertyPlantAndEquipment", "cf_PaymentsForPurchaseOfPropertyPlantAndEquipment"]),
  ("free_cash_flow", ["FreeCashFlow", "Free Cash Flow", "FCF"])]

/-- Inner double loop of `normalize_field` (lines 439-442): first canonical
entry of one map owning a variant whose normalization equals the input. -/
def findCanonical (raw : List Char) : List (String × List String) → Option String
  | [] => none
  | (canonical, variants) :: rest =>
    if variants.any (fun v => normVariant v == raw) then some canonical
    else findCanonical raw rest

/-- Outer loop of `normalize_field` over `maps_to_search` (line 436). -/
def searchMaps (raw : List Char) : List (List (String × List String)) → Option String
  | [] => none
  | m :: rest =>
    match findCanonical raw m with
    | some c => some c
    | none => searchMaps raw rest

/-- `normalize_field` of normalizer.py lines 416-444. -/
def normalize_field (raw_name : String)
    (field_map : Option (List (String × List String))) : Option String :=
  if raw_name.data = [] then none
  else
    searchMaps (normRaw raw_name)
      (match field_map with
       | some m => [m]
       | none => [PL_FIELD_MAP, BS_FIELD_MAP, CF_FIELD_MAP])

/-! Case-insensitivity of `normalize_field`. -/

def upperChars : List Char :=
  ['A','B','C','D','E','F','G','H','I','J','K','L','M',
   'N','O','P','Q','R','S','T','U','V','W','X','Y','Z']

def lowerChars : List Char :=
  ['a','b','c','d','e','f','g','h','i','j','k','l','m',
   'n','o','p','q','r','s','t','u','v','w','x','y','z']

theorem pyLower_upper_mem : ∀ c ∈ upperChars, pyLower c ∈ lowerChars := by
  decide

theorem pyLower_not_upper {c : Char} (h : c ∉ upperChars) : pyLower c = c := by
  simp only [upperChars, List.mem_cons, List.not_mem_nil, or_false] at h
  push_neg at h
  obtain ⟨hA, hB, hC, hD, hE, hF, hG, hH, hI, hJ, hK, hL, hM,
    hN, hO, hP, hQ, hR, hS, hT, hU, hV, hW, hX, hY, hZ⟩ := h
  unfold pyLower
  rw [if_neg hA, if_neg hB, if_neg hC, if_neg hD, if_neg hE, if_neg hF,
    if_neg hG, if_neg hH, if_neg hI, if_neg hJ, if_neg hK, if_neg hL,
    if_neg hM, if_neg hN, if_neg hO, if_neg hP, if_neg hQ, if_neg hR,
    if_neg hS, if_neg hT, if_neg hU, if_neg hV, if_neg hW, if_neg hX,
    if_neg hY, if_neg hZ]

theorem pyLower_cases (c : Char) :
    pyLower c = c ∨ (c ∈ upperChars ∧ pyLower c ∈ lowerChars) := by
  by_cases h : c ∈ upperChars
  · exact Or.inr ⟨h, pyLower_upper_mem c h⟩
  · exact Or.inl (pyLower_not_upper h)

theorem pyLower_fix_on_lower : ∀ c ∈ lowerChars, pyLower c = c := by decide

theorem isPySpace_upper : ∀ c ∈ upperChars, isPySpace c = false := by decide

theorem isPySpace_lower : ∀ c ∈ lowerChars, isPySpace c = false := by decide

theorem pyLower_pyLower (c : Char) : pyLower (pyLower c) = pyLower c := by
  rcases pyLower_cases c with h | ⟨-, h⟩
  · rw [h]; exact h
  · exact pyLower_fix_on_lower _ h

theorem isPySpace_pyLower (c : Char) : isPySpace (pyLower c) = isPySpace c := by
  rcases pyLower_cases c with h | ⟨hu, hl⟩
  · rw [h]
  · rw [isPySpace_lower _ hl, isPySpace_upper _ hu]

theorem pyStrip_map_pyLower (l : List Char) :
    pyStrip (l.map pyLower) = (pyStrip l).map pyLower := by
  have hp : (isPySpace ∘ pyLower) = isPySpace := funext isPySpace_pyLower
  unfold pyStrip
  rw [List.dropWhile_map, hp, ← List.map_reverse, List.dropWhile_map, hp,
    ← List.map_reverse]

theorem normRaw_lowerStr (r : String) : normRaw (lowerStr r) = normRaw r := by
  have hcomp : pyLower ∘ pyLower = pyLower := funext pyLower_pyLower
  show repl '-' ' ' (repl '_' ' ' ((pyStrip (r.data.map pyLower)).map pyLower)) = _
  rw [pyStrip_map_pyLower, List.map_map, hcomp]
  rfl

theorem normalize_field_lowerStr (r : String)
    (fm : Option (List (String × List String))) :
    normalize_field (lowerStr r) fm = normalize_field r fm := by
  unfold normalize_field
  rw [normRaw_lowerStr]
  by_cases h : r.data = []
  · rw [if_pos h, if_pos (by simp [lowerStr, h])]
  · rw [if_neg h, if_neg (by simp [lowerStr, h])]

/-- A raw name matches some alias of the three tables after the
source's normalizations. -/
def matchesSomeAlias (r : String) : Prop :=
  ∃ p ∈ PL_FIELD_MAP ++ BS_FIELD_MAP ++ CF_FIELD_MAP,
    ∃ v ∈ p.2, normVariant v = normRaw r

theorem findCanonical_eq_none_iff (raw : List Char)
    (m : List (String × List String)) :
    findCanonical raw m = none ↔ ∀ p ∈ m, ∀ v ∈ p.2, normVariant v ≠ raw := by
  induction m with
  | nil => simp [findCanonical]
  | cons hd tl ih =>
    obtain ⟨c, vs⟩ := hd
    simp only [findCanonical]
    by_cases h : vs.any (fun v => normVariant v == raw) = true
    · rw [if_pos h]
      rw [List.any_eq_true] at h
      obtain ⟨v, hv, hbeq⟩ := h
      rw [beq_iff_eq] at hbeq
      constructor
      · intro hcontra; exact absurd hcontra (by simp)
      · intro hall
        exact absurd hbeq (hall (c, vs) (List.mem_cons_self _ _) v hv)
    · rw [if_neg h, ih]
      constructor
      · intro hall p hp v hv
        rcases List.mem_cons.mp hp with rfl | hp'
        · intro heq
          exact h (List.any_eq_true.mpr ⟨v, hv, beq_iff_eq.mpr heq⟩)
        · exact hall p hp' v hv
      · intro hall p hp v hv
        exact hall p (List.mem_cons_of_mem _ hp) v hv

theorem searchMaps_eq_none_iff (raw : List Char)
    (ms : List (List (String × List String))) :
    searchMaps raw ms = none ↔ ∀ m ∈ ms, findCanonical raw m = none := by
  induction ms with
  | nil => simp [searchMaps]
  | cons m rest ih =>
    cases h : findCanonical raw m with
    | some c =>
      simp only [searchMaps, h]
      constructor
      · intro hc; exact absurd hc (by simp)
      · intro hall
        exact absurd (hall m (List.mem_cons_self _ _)) (by simp [h])
    | none =>
      simp only [searchMaps, h, ih]
      constructor
      · intro hall m' hm'
        rcases List.mem_cons.mp hm' with rfl | hm''
        · exact h
        · exact hall m' hm''
      · intro hall m' hm'
        exact hall m' (List.mem_cons_of_mem _ hm')

theorem normalize_field_eq_none_iff (r : String) :
    normalize_field r none = none ↔ (r.data = [] ∨ ¬ matchesSomeAlias r) := by
  unfold normalize_field
  by_cases h : r.data = []
  · simp [h]
  · rw [if_neg h]
    rw [searchMaps_eq_none_iff]
    unfold matchesSomeAlias
    constructor
    · intro hall
      refine Or.inr ?_
      rintro ⟨p, hp, v, hv, heq⟩
      rcases List.mem_append.mp hp with hp' | hp'
      rcases List.mem_append.mp hp' with hp'' | hp''
      · exact (findCanonical_eq_none_iff _ _ |>.mp
          (hall PL_FIELD_MAP (by simp))) p hp'' v hv heq
      · exact (findCanonical_eq_none_iff _ _ |>.mp
          (hall BS_FIELD_MAP (by simp))) p hp'' v hv heq
      · exact (findCanonical_eq_none_iff _ _ |>.mp
          (hall CF_FIELD_MAP (by simp))) p hp' v hv heq
    · rintro (hempty | hno)
      · exact absurd hempty h
      · intro m hm
        rw [findCanonical_eq_none_iff]
        intro p hp v hv heq
        refine hno ⟨p, ?_, v, hv, heq⟩
        simp only [List.mem_cons, List.not_mem_nil, or_false] at hm
        rcases hm with rfl | rfl | rfl
        · exact List.mem_append.mpr (Or.inl (List.mem_append.mpr (Or.inl hp)))
        · exact List.mem_append.mpr (Or.inl (List.mem_append.mpr (Or.inr hp)))
        · exact List.mem_append.mpr (Or.inr hp)

/-- C2 counterexample: the alias string "re_ProfitBeforeExceptionalItemsAndTax"
is listed under the two distinct canonical fields `operating_profit` and
`profit_before_exceptional` of the PL table, so the alias lists of distinct
canonical fields are not disjoint (identical strings are equal under any
normalization). -/
theorem C2_alias_tables_not_disjoint :
    "re_ProfitBeforeExceptionalItemsAndTax" ∈
      ((PL_FIELD_MAP.lookup "operating_profit").getD []) ∧
    "re_ProfitBeforeExceptionalItemsAndTax" ∈
      ((PL_FIELD_MAP.lookup "profit_before_exceptional").getD []) ∧
    "operating_profit" ≠ "profit_before_exceptional" := by
  decide

/-- C2 amended: the PL/BS/CF alias tables contain shared aliases — e.g.
"re_ProfitBeforeExceptionalItemsAndTax" under both `operating_profit` and
`profit_before_exceptional` of the PL table, and "DepreciationAndAmortisation"
under PL `depreciation` and CF `depreciation_in_cf` — and `normalize_field`
resolves a shared alias to the first canonical field in its search order
(PL before BS before CF, each table in insertion order). -/
theorem C2_amended_shared_aliases_resolve_first :
    "re_ProfitBeforeExceptionalItemsAndTax" ∈
      ((PL_FIELD_MAP.lookup "operating_profit").getD []) ∧
    "re_ProfitBeforeExceptionalItemsAndTax" ∈
      ((PL_FIELD_MAP.lookup "profit_before_exceptional").getD []) ∧
    "DepreciationAndAmortisation" ∈
      ((PL_FIELD_MAP.lookup "depreciation").getD []) ∧
    "DepreciationAndAmortisation" ∈
      ((CF_FIELD_MAP.lookup "depreciation_in_cf").getD []) ∧
    normalize_field "re_ProfitBeforeExceptionalItemsAndTax" none =
      some "operating_profit" ∧
    normalize_field "DepreciationAndAmortisation" none = some "depreciation" := by
  refine ⟨by decide, by decide, by decide, by decide, by decide, by decide⟩

/-- C7 counterexample: `normalize_field` is not idempotent — it returns the
canonical name `purchase_stock_in_trade` for the raw name
"PurchaseOfStockInTrade", yet maps that canonical name itself to null. -/
theorem C7_normalize_field_not_idempotent :
    normalize_field "PurchaseOfStockInTrade" none =
      some "purchase_stock_in_trade" ∧
    normalize_field "purchase_stock_in_trade" none = none := by
  exact ⟨by decide, by decide⟩

/-- C7 amended: `normalize_field` is case-insensitive (lowercasing the input
does not change the result) and insensitive to surrounding whitespace on the
listed aliases; every listed alias of "revenue" maps to `revenue`, and the
canonical name "revenue" itself is re-recognized; a string matching no alias
maps to null (characterized exactly); but the function is not idempotent in
general: "PurchaseOfStockInTrade" normalizes to `purchase_stock_in_trade`,
which itself normalizes to null. -/
theorem C7_normalize_field_amended :
    (∀ r : String, ∀ fm, normalize_field (lowerStr r) fm = normalize_field r fm) ∧
    (∀ a ∈ ((PL_FIELD_MAP.lookup "revenue").getD []),
      normalize_field a none = some "revenue") ∧
    normalize_field "revenue" none = some "revenue" ∧
    normalize_field "  Revenue  " none = some "revenue" ∧
    normalize_field "ReVeNuE" none = some "revenue" ∧
    normalize_field "SomeRandomField" none = none ∧
    (∀ r : String,
      normalize_field r none = none ↔ (r.data = [] ∨ ¬ matchesSomeAlias r)) ∧
    normalize_field "PurchaseOfStockInTrade" none =
      some "purchase_stock_in_trade" ∧
    normalize_field "purchase_stock_in_trade" none = none := by
  refine ⟨normalize_field_lowerStr, by decide, by decide, by decide, by decide,
    by decide, normalize_field_eq_none_iff, by decide, by decide⟩

/-- Witness for C7's amended theorem: its bounded quantifier discharged at the
concrete alias "Sales". -/
theorem C7_normalize_field_amended_witness :
    normalize_field "Sales" none = some "revenue" :=
  C7_normalize_field_amended.2.1 "Sales" (by decide)

/-! ## Numeric cell parser (`src/scrapers/utils/html_table_parser.py`,
`parse_numeric`, lines 197-241) -/

/-- Value of a string of decimal digit characters. -/
def digitsToNat (l : List Char) : ℕ :=
  l.foldl (fun a c => 10 * a + (c.toNat - 48)) 0

/-- Model of `re.sub(r"rs\.?", "", text, flags=re.IGNORECASE)` (line 235):
removes every non-overlapping occurrence of "rs" (any case) together with an
optional following dot. -/
def removeRs : List Char → List Char
  | [] => []
  | [c1] => [c1]
  | c1 :: c2 :: rest2 =>
    if (c1 = 'r' ∨ c1 = 'R') ∧ (c2 = 's' ∨ c2 = 'S') then
      match rest2 with
      | '.' :: rest3 => removeRs rest3
      | other => removeRs other
    else c1 :: removeRs (c2 :: rest2)

/-- Model of Python's `float(text)` for finite decimal literals, as an exact
(numerator, power-of-ten denominator) pair: optional surrounding whitespace,
optional sign, digits with optional fractional part and optional exponent.
The special forms `inf`/`nan` and underscore digit separators have no rational
counterpart in the inputs this development evaluates and are outside the
model. -/
def pyFloatParts (s : List Char) : Option (ℤ × ℕ) :=
  let t := pyStrip s
  let su : ℤ × List Char :=
    match t with
    | '+' :: rest => (1, rest)
    | '-' :: rest => (-1, rest)
    | _ => (1, t)
  let u := su.2
  let ipart := u.takeWhile Char.isDigit
  let rest1 := u.dropWhile Char.isDigit
  let fr : List Char × List Char :=
    match rest1 with
    | '.' :: r => (r.takeWhile Char.isDigit, r.dropWhile Char.isDigit)
    | _ => ([], rest1)
  let fpart := fr.1
  let rest2 := fr.2
  if ipart = [] ∧ fpart = [] then none
  else
    let mant : ℤ :=
      su.1 * ((digitsToNat ipart : ℤ) * 10 ^ fpart.length + digitsToNat fpart)
    let den : ℕ := 10 ^ fpart.length
    match rest2 with
    | [] => some (mant, den)
    | e :: r3 =>
      if e = 'e' ∨ e = 'E' then
        let sr : Bool × List Char :=
          match r3 with
          | '+' :: rr => (false, rr)
          | '-' :: rr => (true, rr)
          | _ => (false, r3)
        let edigits := sr.2.takeWhile Char.isDigit
        if edigits = [] ∨ sr.2.dropWhile Char.isDigit ≠ [] then none
        else if sr.1 then some (mant, den * 10 ^ digitsToNat edigits)
        else some (mant * 10 ^ digitsToNat edigits, den)
      else none

/-- `float(text)` as a rational. -/
def pyFloat (s : List Char) : Option ℚ :=
  (pyFloatParts s).map (fun p => (p.1 : ℚ) / (p.2 : ℚ))

/-- The list of cell texts treated as zero (line 219). -/
def zeroStrings : List String :=
  ["-", "--", "—", "", "NA", "N/A", "nil", "Nil", "NIL"]

/-- `parse_numeric` of html_table_parser.py lines 197-241.  The `multiplier`
local of lines 231/239 is the constant 1.0 in the source and is kept as the
final `* 1`. -/
def parse_numeric (text : String) : Option ℚ :=
  if text.data = [] then none
  else
    let t1 := pyStrip text.data
    if zeroStrings.any (fun z => z.data == t1) then some 0
    else
      let t2 := (t1.filter (fun c => !(c == ','))).filter (fun c => !(c == ' '))
      let t3 :=
        if t2.head? = some '(' ∧ t2.getLast? = some ')' then
          '-' :: (t2.drop 1).dropLast
        else t2
      let t4 := t3.filter (fun c => !(c == '₹' || c == '$' || c == '€' || c == '£'))
      let t5 := removeRs t4
      (pyFloat t5).map (fun v => v * 1)

/-! Helper lemmas for evaluating the parsing pipeline on symbolic digit
strings. -/

theorem dropWhile_eq_self_of {α : Type} {p : α → Bool} {l : List α}
    (h : ∀ c ∈ l, p c = false) : l.dropWhile p = l := by
  cases l with
  | nil => rfl
  | cons a t => simp [List.dropWhile_cons, h a (List.mem_cons_self a t)]

theorem takeWhile_eq_self_of {α : Type} {p : α → Bool} {l : List α}
    (h : ∀ c ∈ l, p c = true) : l.takeWhile p = l := by
  induction l with
  | nil => rfl
  | cons a t ih =>
    simp [List.takeWhile_cons, h a (List.mem_cons_self a t),
      ih (fun c hc => h c (List.mem_cons_of_mem a hc))]

theorem dropWhile_eq_nil_of {α : Type} {p : α → Bool} {l : List α}
    (h : ∀ c ∈ l, p c = true) : l.dropWhile p = [] := by
  induction l with
  | nil => rfl
  | cons a t ih =>
    simp [List.dropWhile_cons, h a (List.mem_cons_self a t),
      ih (fun c hc => h c (List.mem_cons_of_mem a hc))]

theorem pyStrip_eq_self {l : List Char}
    (h : ∀ c ∈ l, isPySpace c = false) : pyStrip l = l := by
  unfold pyStrip
  rw [dropWhile_eq_self_of h,
    dropWhile_eq_self_of (fun c hc => h c (List.mem_reverse.mp hc)),
    List.reverse_reverse]

theorem isPySpace_spec {c : Char} (h : isPySpace c = true) :
    c = ' ' ∨ c = '\t' ∨ c = '\n' ∨ c = '\r' ∨ c = '\x0b' ∨ c = '\x0c' := by
  unfold isPySpace at h
  simp only [Bool.or_eq_true, decide_eq_true_eq] at h
  tauto

theorem isDigit_not_pySpace {c : Char} (h : c.isDigit = true) :
    isPySpace c = false := by
  by_contra hc
  rw [Bool.not_eq_false] at hc
  rcases isPySpace_spec hc with rfl | rfl | rfl | rfl | rfl | rfl <;>
    exact absurd h (by decide)

theorem ne_of_isDigit {c : Char} (h : c.isDigit = true) {x : Char}
    (hx : x.isDigit = false) : c ≠ x := by
  intro he
  rw [he, hx] at h
  exact absurd h (by decide)

theorem removeRs_eq_self {l : List Char}
    (h : ∀ c ∈ l, c ≠ 'r' ∧ c ≠ 'R') : removeRs l = l := by
  induction l with
  | nil => rfl
  | cons c1 rest ih =>
    cases rest with
    | nil => rfl
    | cons c2 rest2 =>
      have hc1 := h c1 (List.mem_cons_self _ _)
      have hcond : ¬((c1 = 'r' ∨ c1 = 'R') ∧ (c2 = 's' ∨ c2 = 'S')) := by
        rintro ⟨h1 | h1, -⟩ <;> [exact hc1.1 h1; exact hc1.2 h1]
      rw [removeRs.eq_def]
      dsimp only
      rw [if_neg hcond]
      rw [ih (fun c hc => h c (List.mem_cons_of_mem _ hc))]

/-- Symbolic evaluation of `parse_numeric` on a parenthesized
comma-separated numeral: the result is the negated value of the digits. -/
theorem parse_numeric_paren (s : List Char)
    (hall : ∀ c ∈ s, c.isDigit = true ∨ c = ',')
    (hne : s.filter (fun c => !(c == ',')) ≠ []) :
    parse_numeric ⟨'(' :: s ++ [')']⟩ =
      some (-(digitsToNat (s.filter (fun c => !(c == ','))) : ℚ)) := by
  obtain ⟨ds, hds⟩ : ∃ ds, s.filter (fun c => !(c == ',')) = ds := ⟨_, rfl⟩
  rw [hds] at hne ⊢
  have hds_digit : ∀ c ∈ ds, c.isDigit = true := by
    intro c hc
    rw [← hds] at hc
    obtain ⟨hcs, hcp⟩ := List.mem_filter.mp hc
    rcases hall c hcs with h | h
    · exact h
    · exact absurd hcp (by rw [h]; decide)
  have hnotspace : ∀ c ∈ '(' :: s ++ [')'], isPySpace c = false := by
    intro c hc
    rcases List.mem_append.mp hc with hl | hr
    · rcases List.mem_cons.mp hl with rfl | hcs
      · decide
      · rcases hall c hcs with h | rfl
        · exact isDigit_not_pySpace h
        · decide
    · rw [List.mem_singleton] at hr; subst hr; decide
  have hzero :
      (zeroStrings.any fun z => z.data == ('(' :: s ++ [')'])) = false := rfl
  have hfilter1 :
      ('(' :: s ++ [')']).filter (fun c => !(c == ',')) = '(' :: ds ++ [')'] := by
    simp [List.filter_append, List.filter_cons, hds]
  have hfilter2 :
      ('(' :: ds ++ [')']).filter (fun c => !(c == ' ')) = '(' :: ds ++ [')'] := by
    rw [List.filter_eq_self]
    intro a ha
    rcases List.mem_append.mp ha with hl | hr
    · rcases List.mem_cons.mp hl with rfl | has
      · decide
      · have : a ≠ ' ' := ne_of_isDigit (hds_digit a has) (by decide)
        simp [this]
    · rw [List.mem_singleton] at hr; subst hr; decide
  have hlast : ('(' :: ds ++ [')']).getLast? = some ')' :=
    List.getLast?_concat _
  have hfilter3 :
      ('-' :: ds).filter
        (fun c => !(c == '₹' || c == '$' || c == '€' || c == '£')) = '-' :: ds := by
    rw [List.filter_eq_self]
    intro a ha
    rcases List.mem_cons.mp ha with rfl | ha'
    · decide
    · have h1 : a ≠ '₹' := ne_of_isDigit (hds_digit a ha') (by decide)
      have h2 : a ≠ '$' := ne_of_isDigit (hds_digit a ha') (by decide)
      have h3 : a ≠ '€' := ne_of_isDigit (hds_digit a ha') (by decide)
      have h4 : a ≠ '£' := ne_of_isDigit (hds_digit a ha') (by decide)
      simp [h1, h2, h3, h4]
  have hremove : removeRs ('-' :: ds) = '-' :: ds := by
    refine removeRs_eq_self ?_
    intro c hc
    rcases List.mem_cons.mp hc with rfl | hc'
    · exact ⟨by decide, by decide⟩
    · exact ⟨ne_of_isDigit (hds_digit c hc') (by decide),
        ne_of_isDigit (hds_digit c hc') (by decide)⟩
  have hparts : pyFloatParts ('-' :: ds) = some (-(digitsToNat ds : ℤ), 1) := by
    have hstrip2 : pyStrip ('-' :: ds) = '-' :: ds := by
      refine pyStrip_eq_self ?_
      intro c hc
      rcases List.mem_cons.mp hc with rfl | hc'
      · decide
      · exact isDigit_not_pySpace (hds_digit c hc')
    simp only [pyFloatParts, hstrip2]
    rw [takeWhile_eq_self_of hds_digit, dropWhile_eq_nil_of hds_digit]
    rw [if_neg (fun hcontra => hne hcontra.1)]
    simp [show digitsToNat [] = 0 from rfl]
  simp only [parse_numeric]
  rw [pyStrip_eq_self hnotspace]
  rw [if_neg (by simp : ¬('(' :: s ++ [')'] = []))]
  rw [if_neg (by rw [hzero]; exact Bool.false_ne_true)]
  rw [hfilter1, hfilter2]
  rw [if_pos ⟨rfl, hlast⟩]
  rw [show ('(' :: ds ++ [')']).drop 1 = ds ++ [')'] from rfl,
    List.dropLast_concat]
  rw [hfilter3, hremove]
  unfold pyFloat
  rw [hparts]
  simp only [Option.map_some']
  norm_num

/-- C5 counterexample: the empty string and the case variants "na" / "nIl"
of "NA" / "nil" are parsed to null, not 0.0. -/
theorem C5_parse_numeric_zero_forms_refuted :
    parse_numeric "" = none ∧
    parse_numeric "na" = none ∧
    parse_numeric "nIl" = none := by
  refine ⟨by decide, by decide, by decide⟩

/-- C5 amended: the dash forms "-", "--", "—", whitespace-only strings and
exactly the spellings "NA", "N/A", "nil", "Nil", "NIL" parse to 0.0; the empty
string and other case variants of "NA"/"nil" parse to null; every
parenthesized comma-separated numeral parses to the negated value of its
digits; and "(1,234)" → -1234.0, "-" → 0.0, "1,234.50" → 1234.50. -/
theorem C5_parse_numeric_amended :
    (∀ s : List Char, (∀ c ∈ s, c.isDigit = true ∨ c = ',') →
      s.filter (fun c => !(c == ',')) ≠ [] →
      parse_numeric ⟨'(' :: s ++ [')']⟩ =
        some (-(digitsToNat (s.filter (fun c => !(c == ','))) : ℚ))) ∧
    parse_numeric "(1,234)" = some (-1234) ∧
    parse_numeric "-" = some 0 ∧
    parse_numeric "--" = some 0 ∧
    parse_numeric "—" = some 0 ∧
    parse_numeric "1,234.50" = some (2469/2) ∧
    parse_numeric "   " = some 0 ∧
    parse_numeric "NA" = some 0 ∧
    parse_numeric "N/A" = some 0 ∧
    parse_numeric "nil" = some 0 ∧
    parse_numeric "Nil" = some 0 ∧
    parse_numeric "NIL" = some 0 ∧
    parse_numeric "" = none ∧
    parse_numeric "na" = none ∧
    parse_numeric "nIl" = none := by
  refine ⟨parse_numeric_paren, ?_, by decide, by decide, by decide, ?_,
    by decide, by decide, by decide, by decide, by decide, by decide,
    by decide, by decide, by decide⟩
  · have h : parse_numeric "(1,234)" =
        some ((((-1234 : ℤ) : ℚ) / ((1 : ℕ) : ℚ)) * 1) := by rfl
    rw [h]; norm_num
  · have h : parse_numeric "1,234.50" =
        some ((((123450 : ℤ) : ℚ) / ((100 : ℕ) : ℚ)) * 1) := by rfl
    rw [h]; norm_num

/-- Witness for C5's amended theorem: the universally quantified clause
applied at the concrete digit string "1,234". -/
theorem C5_parse_numeric_amended_witness :
    parse_numeric ⟨'(' :: ("1,234".data) ++ [')']⟩ =
      some (-(digitsToNat (("1,234".data).filter (fun c => !(c == ','))) : ℚ)) :=
  C5_parse_numeric_amended.1 "1,234".data (by decide) (by decide)

/-! ## Period parsing (`src/scrapers/utils/html_table_parser.py`,
`parse_period_from_header`, lines 244-418) -/

/-- A calendar date (Python `datetime.date`; Python restricts the year to
1..9999 and raises outside it, so inputs that would make the year
underflow are outside the model). -/
structure PDate where
  y : ℕ
  m : ℕ
  d : ℕ
deriving DecidableEq

def isLeap (y : ℕ) : Bool := y % 4 = 0 && (y % 100 ≠ 0 || y % 400 = 0)

def daysInMonth (y m : ℕ) : ℕ :=
  if m = 2 then (if isLeap y then 29 else 28)
  else if m = 4 ∨ m = 6 ∨ m = 9 ∨ m = 11 then 30
  else 31

/-- `dateutil.relativedelta(months=k)` subtraction: shift the month index,
clamping the day to the target month's length. -/
def subMonths (dt : PDate) (k : ℕ) : PDate :=
  let t := dt.y * 12 + (dt.m - 1) - k
  let y := t / 12
  let m := t % 12 + 1
  ⟨y, m, min dt.d (daysInMonth y m)⟩

/-- `dateutil.relativedelta(years=k)` subtraction: same month, year shifted,
day clamped (Feb 29 becomes Feb 28). -/
def subYears (dt : PDate) (k : ℕ) : PDate :=
  ⟨dt.y - k, dt.m, min dt.d (daysInMonth (dt.y - k) dt.m)⟩

/-- `dateutil.relativedelta(days=1)` addition. -/
def addOneDay (dt : PDate) : PDate :=
  if dt.d < daysInMonth dt.y dt.m then ⟨dt.y, dt.m, dt.d + 1⟩
  else if dt.m < 12 then ⟨dt.y, dt.m + 1, 1⟩
  else ⟨dt.y + 1, 1, 1⟩

/-- `_calculate_period_start` of html_table_parser.py lines 407-418. -/
def _calculate_period_start (end_date : PDate) (period_type : String) : PDate :=
  if period_type = "quarterly" then addOneDay (subMonths end_date 3)
  else if period_type = "half_yearly" then addOneDay (subMonths end_date 6)
  else if period_type = "nine_months" then addOneDay (subMonths end_date 9)
  else addOneDay (subYears end_date 1)

/-- The result dict of `parse_period_from_header`: keys "original", "end",
"type", "quarter", "fiscal_year", "start".  A fiscal-year label "FY<n>" is
represented by its numeric year `n`. -/
structure PeriodInfo where
  original : String
  pend : Option PDate
  ptype : Option String
  quarter : Option ℕ
  fiscal_year : Option ℕ
  pstart : Option PDate
deriving DecidableEq

/-- Substring containment (used for the literal-substring gates of the
regex branches). -/
def containsSub (pat : List Char) : List Char → Bool
  | [] => pat.isEmpty
  | c :: rest => pat.isPrefixOf (c :: rest) || containsSub pat rest

def containsChar (x : Char) (l : List Char) : Bool := l.any (fun c => c = x)

/-- Attempt of the pattern `q([1-4])\s*fy\s*(\d{2,4})` (line 287, case
insensitive, matched here on lowered text) at one position: returns the
quarter and the captured year digits. -/
def matchQFYAt (l : List Char) : Option (ℕ × List Char) :=
  match l with
  | 'q' :: c :: rest =>
    if c = '1' ∨ c = '2' ∨ c = '3' ∨ c = '4' then
      match (rest.dropWhile isPySpace) with
      | 'f' :: 'y' :: r2 =>
        let ds := ((r2.dropWhile isPySpace).takeWhile Char.isDigit).take 4
        if 2 ≤ ds.length then some (c.toNat - 48, ds) else none
      | _ => none
    else none
  | _ => none

/-- `re.search` of the quarter pattern: leftmost match. -/
def searchQFY : List Char → Option (ℕ × List Char)
  | [] => none
  | c :: rest =>
    match matchQFYAt (c :: rest) with
    | some r => some r
    | none => searchQFY rest

/-- Attempt of the pattern `fy\s*(\d{2,4})` (line 316) at one position. -/
def matchFYAt (l : List Char) : Option (List Char) :=
  match l with
  | 'f' :: 'y' :: r2 =>
    let ds := ((r2.dropWhile isPySpace).takeWhile Char.isDigit).take 4
    if 2 ≤ ds.length then some ds else none
  | _ => none

def searchFY : List Char → Option (List Char)
  | [] => none
  | c :: rest =>
    match matchFYAt (c :: rest) with
    | some r => some r
    | none => searchFY rest

/-- Attempt of the year-range pattern of line 332 (four digits, a dash or
slash separator, then two to four digits) at one position: start year value
and end-year digit group. -/
def matchRangeAt (l : List Char) : Option (ℕ × List Char) :=
  match l with
  | a :: b :: c :: d :: sep :: rest =>
    if a.isDigit ∧ b.isDigit ∧ c.isDigit ∧ d.isDigit ∧ (sep = '-' ∨ sep = '/') then
      let eds := (rest.takeWhile Char.isDigit).take 4
      if 2 ≤ eds.length then some (digitsToNat [a, b, c, d], eds) else none
    else none
  | _ => none

def searchRange : List Char → Option (ℕ × List Char)
  | [] => none
  | c :: rest =>
    match matchRangeAt (c :: rest) with
    | some r => some r
    | none => searchRange rest

def quarter_end_month (q : ℕ) : ℕ :=
  if q = 1 then 6 else if q = 2 then 9 else if q = 3 then 12 else 3

def quarter_end_year (q fy_year : ℕ) : ℕ :=
  if q = 4 then fy_year else fy_year - 1

def quarter_end_day (q : ℕ) : ℕ :=
  if q = 1 then 30 else if q = 2 then 30 else 31

/-- The three-letter month markers required by the month/year pattern of
line 350. -/
def monthTrigrams : List (List Char) :=
  [['j','a','n'], ['f','e','b'], ['m','a','r'], ['a','p','r'],
   ['m','a','y'], ['j','u','n'], ['j','u','l'], ['a','u','g'],
   ['s','e','p'], ['o','c','t'], ['n','o','v'], ['d','e','c']]

/-- `parse_period_from_header` of html_table_parser.py lines 244-390.

The first branch ("Quarter/Year ended DD-Mon-YYYY", lines 269-284) and the
last branch ("Mon YYYY" / "DD-Mon-YYYY", lines 349-388) delegate date
construction to the external `dateutil` / `calendar` libraries; they are
modelled by the parameters `endedBranch` and `monthBranch`, guarded by the
literal substrings their regexes require ("ended", and a month abbreviation
respectively), so the model is exact on texts that cannot reach those
branches.  The quarter-FY, FY, and year-range branches are embedded fully. -/
def parse_period_from_header (endedBranch monthBranch : String → Option PeriodInfo)
    (text : String) : Option PeriodInfo :=
  if text.data = [] then none
  else
    let t := pyStrip text.data
    let low := t.map pyLower
    let original : String := ⟨t⟩
    let monthB : Option PeriodInfo :=
      if monthTrigrams.any (fun pat => containsSub pat low) then monthBranch ⟨t⟩
      else none
    match (if containsSub ['e','n','d','e','d'] low then endedBranch ⟨t⟩ else none) with
    | some r => some r
    | none =>
    match searchQFY low with
    | some (q, fyds) =>
      let fy_year := if fyds.length = 2 then 2000 + digitsToNat fyds else digitsToNat fyds
      let end_date : PDate :=
        ⟨quarter_end_year q fy_year, quarter_end_month q, quarter_end_day q⟩
      some { original := original, pend := some end_date,
             ptype := some "quarterly", quarter := some q,
             fiscal_year := some fy_year,
             pstart := some (_calculate_period_start end_date "quarterly") }
    | none =>
    match (if containsChar 'q' low then none else searchFY low) with
    | some fyds =>
      let fy_year := if fyds.length = 2 then 2000 + digitsToNat fyds else digitsToNat fyds
      some { original := original, pend := some ⟨fy_year, 3, 31⟩,
             ptype := some "annual", quarter := none,
             fiscal_year := some fy_year,
             pstart := some ⟨fy_year - 1, 4, 1⟩ }
    | none =>
    match searchRange low with
    | some (start_year, eds) =>
      let end_year :=
        if eds.length = 2 then (start_year / 100) * 100 + digitsToNat eds
        else digitsToNat eds
      if end_year = start_year + 1 then
        some { original := original, pend := some ⟨end_year, 3, 31⟩,
               ptype := some "annual", quarter := none,
               fiscal_year := some end_year,
               pstart := some ⟨start_year, 4, 1⟩ }
      else monthB
    | none => monthB

/-- C6: period parsing follows the Indian fiscal-year convention:
"Q1 FY24" parses to end 2023-06-30, quarterly, quarter 1, fiscal year
FY2024; "FY2024" parses to end 2024-03-31, start 2023-04-01, annual; and
the quarter-to-month-end mapping is Q1→Jun, Q2→Sep, Q3→Dec with end-year
FY_year−1 and Q4→Mar with end-year FY_year — for every choice of the
externally-parameterized branches and every fiscal year. -/
theorem C6_period_parsing_fiscal_convention :
    (∀ endedBranch monthBranch,
      parse_period_from_header endedBranch monthBranch "Q1 FY24" =
        some { original := "Q1 FY24", pend := some ⟨2023, 6, 30⟩,
               ptype := some "quarterly", quarter := some 1,
               fiscal_year := some 2024,
               pstart := some ⟨2023, 3, 31⟩ }) ∧
    (∀ endedBranch monthBranch,
      parse_period_from_header endedBranch monthBranch "FY2024" =
        some { original := "FY2024", pend := some ⟨2024, 3, 31⟩,
               ptype := some "annual", quarter := none,
               fiscal_year := some 2024,
               pstart := some ⟨2023, 4, 1⟩ }) ∧
    (∀ fy_year : ℕ,
      quarter_end_month 1 = 6 ∧ quarter_end_month 2 = 9 ∧
      quarter_end_month 3 = 12 ∧ quarter_end_month 4 = 3 ∧
      quarter_end_year 1 fy_year = fy_year - 1 ∧
      quarter_end_year 2 fy_year = fy_year - 1 ∧
      quarter_end_year 3 fy_year = fy_year - 1 ∧
      quarter_end_year 4 fy_year = fy_year ∧
      quarter_end_day 1 = 30 ∧ quarter_end_day 2 = 30 ∧
      quarter_end_day 3 = 31 ∧ quarter_end_day 4 = 31) := by
  refine ⟨fun eb mb => rfl, fun eb mb => rfl, fun fy_year => ?_⟩
  refine ⟨rfl, rfl, rfl, rfl, ?_, ?_, ?_, ?_, rfl, rfl, rfl, rfl⟩ <;>
    simp [quarter_end_year]

/-! ## Quality checker (`src/quality/checker.py`) -/

/-- `THRESHOLDS` of checker.py lines 32-51 (percent tolerance per field). -/
def THRESHOLDS : List (String × ℚ) :=
  [("revenue", 1), ("net_profit", 2), ("total_expenses", 1),
   ("operating_profit", 2), ("total_assets", 3/2), ("total_equity", 2),
   ("total_borrowings", 3), ("pe_ratio", 10), ("roe", 3), ("roce", 3),
   ("debt_equity", 5), ("eps_basic", 3), ("_default", 5)]

/-- `QualityChecker._get_threshold` (lines 345-347):
`THRESHOLDS.get(field_name, THRESHOLDS["_default"])`.  The final 0 arm is
unreachable because "_default" is a key of the table. -/
def _get_threshold (field_name : String) : ℚ :=
  match THRESHOLDS.lookup field_name with
  | some t => t
  | none =>
    match THRESHOLDS.lookup "_default" with
    | some t => t
    | none => 0

/-- One field comparison: the guard of `_check_company` line 181, the
deviation of lines 182/188 (rounded to 2 decimals when stored), and the
acceptability test of `run_quality_check` lines 97-98 applied to the stored
deviation. -/
def compare_field (field_name : String) (our_value ref_value : Option ℚ) :
    Option (ℚ × Bool) :=
  match our_value, ref_value with
  | some ov, some rv =>
    if rv ≠ 0 then
      let pct_deviation := round2 (((ov - rv) / |rv|) * 100)
      some (pct_deviation, decide (|pct_deviation| ≤ _get_threshold field_name))
    else none
  | _, _ => none

/-- C8 counterexample: for our_value=105.004, reference_value=100 on a
default-threshold field, the exact deviation 5.004 exceeds the threshold 5,
yet the code rounds the stored deviation to 5.00 and accepts — so
"acceptable exactly when |((our−reference)/|reference|)×100| ≤ threshold"
is false as stated. -/
theorem C8_acceptability_uses_rounded_deviation :
    compare_field "dividend_yield" (some (105004/1000)) (some 100) =
      some (5, true) ∧
    ¬(|(((105004:ℚ)/1000 - 100) / |(100:ℚ)|) * 100| ≤
        _get_threshold "dividend_yield") := by
  have habs : |(100:ℚ)| = 100 := abs_of_pos (by norm_num)
  have hthr : _get_threshold "dividend_yield" = 5 := by decide
  constructor
  · unfold compare_field
    dsimp only
    rw [if_pos (show (100:ℚ) ≠ 0 by norm_num)]
    have h5 : round2 ((((105004:ℚ)/1000) - 100) / |(100:ℚ)| * 100) = 5 := by
      rw [habs]; norm_num [round2, pyRoundHalfEven]
    rw [h5, hthr]
    rw [abs_of_pos (show (0:ℚ) < 5 by norm_num)]
    simp only [Option.some.injEq, Prod.mk.injEq]
    refine ⟨trivial, ?_⟩
    rw [decide_eq_true_eq]
  · rw [hthr, habs]
    rw [abs_of_pos (by norm_num : (0:ℚ) < ((105004:ℚ)/1000 - 100) / 100 * 100)]
    norm_num

/-- C8 amended: for a non-null, non-zero reference value the stored
pct_deviation is ((our−reference)/|reference|)×100 *rounded to 2 decimals*,
and the comparison is acceptable exactly when |pct_deviation| (the rounded
value) is at most the per-field threshold (revenue 1.0, net_profit 2.0,
pe_ratio 10.0, roe 3.0, roce 3.0, debt_equity 5.0, default 5.0), boundary
inclusive: our_value=105 against reference_value=100 at threshold 5.0 gives
pct_deviation=5.0 and acceptable=true; null or zero reference values produce
no comparison. -/
theorem C8_quality_check_amended :
    (∀ f : String, ∀ ov rv pd : ℚ, ∀ acc : Bool, rv ≠ 0 →
      compare_field f (some ov) (some rv) = some (pd, acc) →
      pd = round2 (((ov - rv) / |rv|) * 100) ∧
        (acc = true ↔ |pd| ≤ _get_threshold f)) ∧
    _get_threshold "revenue" = 1 ∧
    _get_threshold "net_profit" = 2 ∧
    _get_threshold "pe_ratio" = 10 ∧
    _get_threshold "roe" = 3 ∧
    _get_threshold "roce" = 3 ∧
    _get_threshold "debt_equity" = 5 ∧
    _get_threshold "book_value_per_share" = 5 ∧
    compare_field "debt_equity" (some 105) (some 100) = some (5, true) ∧
    (∀ f : String, ∀ ov : ℚ, compare_field f (some ov) (some 0) = none) ∧
    (∀ f : String, ∀ rv : Option ℚ, compare_field f none rv = none) := by
  refine ⟨?_, by decide, by decide, by decide, by decide, by decide, by decide,
    by decide, ?_, ?_, ?_⟩
  · intro f ov rv pd acc hrv heq
    unfold compare_field at heq
    dsimp only at heq
    rw [if_pos hrv] at heq
    rw [Option.some.injEq, Prod.mk.injEq] at heq
    obtain ⟨hpd, hacc⟩ := heq
    refine ⟨hpd.symm, ?_⟩
    rw [← hpd, ← hacc]
    exact decide_eq_true_iff
  · unfold compare_field
    dsimp only
    rw [if_pos (show (100:ℚ) ≠ 0 by norm_num)]
    have habs : |(100:ℚ)| = 100 := abs_of_pos (by norm_num)
    have h5 : round2 ((((105:ℚ)) - 100) / |(100:ℚ)| * 100) = 5 := by
      rw [habs]; norm_num [round2, pyRoundHalfEven]
    have hthr : _get_threshold "debt_equity" = 5 := by decide
    rw [h5, hthr]
    rw [abs_of_pos (show (0:ℚ) < 5 by norm_num)]
    simp only [Option.some.injEq, Prod.mk.injEq]
    refine ⟨trivial, ?_⟩
    rw [decide_eq_true_eq]
  · intro f ov
    unfold compare_field
    dsimp only
    rw [if_neg (by simp)]
  · intro f rv
    cases rv <;> rfl

/-- Witness for C8's amended theorem: its characterization clause applied at
the boundary example (our 105, reference 100, field debt_equity). -/
theorem C8_quality_check_amended_witness :
    (5:ℚ) = round2 ((((105:ℚ) - 100) / |(100:ℚ)|) * 100) ∧
    (true = true ↔ |(5:ℚ)| ≤ _get_threshold "debt_equity") :=
  C8_quality_check_amended.1 "debt_equity" 105 100 5 true (by norm_num)
    C8_quality_check_amended.2.2.2.2.2.2.2.2.1

/-! ## Ratio engine (`src/engine/ratios.py`) -/

/-- The `FinancialData` dataclass of ratios.py lines 23-107: every field a
float defaulting to 0.0, with the derived `ebitda`/`ebit` fields (and here
the raw, pre-`__post_init__` values of `total_borrowings`/`total_equity`);
`postInit` below applies `__post_init__`. -/
structure FinancialData where
  revenue : ℚ := 0
  other_income : ℚ := 0
  total_income : ℚ := 0
  raw_material_cost : ℚ := 0
  employee_cost : ℚ := 0
  total_expenses : ℚ := 0
  operating_profit : ℚ := 0
  depreciation : ℚ := 0
  interest_expense : ℚ := 0
  profit_before_exceptional : ℚ := 0
  exceptional_items : ℚ := 0
  profit_before_tax : ℚ := 0
  tax_expense : ℚ := 0
  net_profit : ℚ := 0
  eps_basic : ℚ := 0
  eps_diluted : ℚ := 0
  share_capital : ℚ := 0
  reserves_surplus : ℚ := 0
  total_equity : ℚ := 0
  minority_interest : ℚ := 0
  long_term_borrowings : ℚ := 0
  short_term_borrowings : ℚ := 0
  total_borrowings : ℚ := 0
  total_current_liabilities : ℚ := 0
  total_non_current_liabilities : ℚ := 0
  total_liabilities : ℚ := 0
  total_current_assets : ℚ := 0
  total_non_current_assets : ℚ := 0
  total_assets : ℚ := 0
  fixed_assets : ℚ := 0
  cwip : ℚ := 0
  intangible_assets : ℚ := 0
  investments : ℚ := 0
  non_current_investments : ℚ := 0
  current_investments : ℚ := 0
  inventory : ℚ := 0
  trade_receivables : ℚ := 0
  trade_payables : ℚ := 0
  cash_and_equivalents : ℚ := 0
  goodwill : ℚ := 0
  cfo : ℚ := 0
  cfi : ℚ := 0
  cff : ℚ := 0
  net_cash_flow : ℚ := 0
  capex : ℚ := 0
  current_price : ℚ := 0
  shares_outstanding : ℚ := 0
  face_value : ℚ := 0
  ebitda : ℚ := 0
  ebit : ℚ := 0

/-- `FinancialData.__post_init__` (ratios.py lines 87-107): derive EBITDA,
EBIT, and fall back to component sums for total borrowings and equity. -/
def FinancialData.postInit (x : FinancialData) : FinancialData :=
  { x with
    ebitda :=
      if x.operating_profit > 0 then x.operating_profit
      else x.profit_before_tax + x.interest_expense + x.depreciation,
    ebit := x.profit_before_tax + x.interest_expense,
    total_borrowings :=
      if x.total_borrowings = 0 then
        x.long_term_borrowings + x.short_term_borrowings
      else x.total_borrowings,
    total_equity :=
      if x.total_equity = 0 ∧ (x.share_capital > 0 ∨ x.reserves_surplus > 0) then
        x.share_capital + x.reserves_surplus
      else x.total_equity }

/-- `compute_ratios` of ratios.py lines 139-312, as the association list the
Python dict builds, in insertion order.  The `is_annual` parameter is unused
in the source body and kept for signature fidelity. -/
def compute_ratios (current : FinancialData) (previous : Option FinancialData)
    (is_annual : Bool) : List (String × Option ℚ) :=
  let avg : ℚ → ℚ → ℚ := fun current_val prev_val =>
    if previous.isSome ∧ prev_val > 0 then (current_val + prev_val) / 2
    else current_val
  let market_cap := current.current_price * current.shares_outstanding
  let bvps := safe_div current.total_equity current.shares_outstanding none
  let ev_pair : Option ℚ × Option ℚ :=
    if market_cap > 0 then
      let ev := market_cap + current.total_borrowings - current.cash_and_equivalents
      (some (round2 ev),
        if current.ebitda > 0 then safe_div ev current.ebitda none else none)
    else (none, none)
  let prev_equity := match previous with | some p => p.total_equity | none => 0
  let avg_equity := avg current.total_equity prev_equity
  let capital_employed := current.total_equity + current.total_borrowings -
    current.investments - current.non_current_investments - current.cwip
  let prev_ce := match previous with
    | some p => p.total_equity + p.total_borrowings - p.investments -
        p.non_current_investments - p.cwip
    | none => 0
  let avg_ce := avg capital_employed prev_ce
  let prev_assets := match previous with | some p => p.total_assets | none => 0
  let avg_assets := avg current.total_assets prev_assets
  let cogs0 := current.total_expenses - current.depreciation -
    current.interest_expense - current.employee_cost
  let cogs := if cogs0 ≤ 0 then
      current.total_expenses - current.depreciation - current.interest_expense
    else cogs0
  let inventory_days := if cogs > 0 ∧ current.inventory > 0 then
      some (round2 (current.inventory * 365 / cogs)) else none
  let receivable_days := if current.revenue > 0 ∧ current.trade_receivables > 0 then
      some (round2 (current.trade_receivables * 365 / current.revenue)) else none
  let payable_days := if cogs > 0 ∧ current.trade_payables > 0 then
      some (round2 (current.trade_payables * 365 / cogs)) else none
  let ccc := match inventory_days, receivable_days, payable_days with
    | some i, some r, some p => some (round2 (i + r - p))
    | _, _, _ => none
  [("market_cap", if market_cap > 0 then some (round2 market_cap) else none),
   ("pe_ratio", safe_div current.current_price current.eps_basic none),
   ("book_value_per_share", bvps),
   ("pb_ratio", match bvps with
     | some b => if b > 0 then safe_div current.current_price b none else none
     | none => none),
   ("ev", ev_pair.1),
   ("ev_ebitda", ev_pair.2),
   ("dividend_yield", none),
   ("operating_margin", safe_div (current.ebitda * 100) current.revenue none),
   ("net_margin", safe_div (current.net_profit * 100) current.revenue none),
   ("roe", safe_div (current.net_profit * 100) avg_equity none),
   ("roce", safe_div (current.ebit * 100) avg_ce none),
   ("roa", safe_div (current.net_profit * 100) avg_assets none),
   ("asset_turnover", safe_div current.revenue avg_assets none),
   ("inventory_days", inventory_days),
   ("receivable_days", receivable_days),
   ("payable_days", payable_days),
   ("cash_conversion_cycle", ccc),
   ("debt_equity", safe_div current.total_borrowings current.total_equity none),
   ("current_ratio",
     safe_div current.total_current_assets current.total_current_liabilities none),
   ("interest_coverage", safe_div current.ebit current.interest_expense none),
   ("revenue_growth", none),
   ("profit_growth", none),
   ("eps", if current.eps_basic ≠ 0 then some current.eps_basic else none),
   ("free_cash_flow", if current.cfo ≠ 0 then
       some (round2 (current.cfo - |current.capex|)) else none)]

/-- The fixed ratio name list produced by `compute_ratios`, in insertion
order. -/
def ratioKeys : List String :=
  ["market_cap", "pe_ratio", "book_value_per_share", "pb_ratio", "ev",
   "ev_ebitda", "dividend_yield", "operating_margin", "net_margin",
   "roe", "roce", "roa", "asset_turnover", "inventory_days",
   "receivable_days", "payable_days", "cash_conversion_cycle",
   "debt_equity", "current_ratio", "interest_coverage",
   "revenue_growth", "profit_growth", "eps", "free_cash_flow"]

/-- C9: `compute_ratios` is total (modelled as a total function) and for
every input returns a mapping whose key list is exactly the fixed,
duplicate-free list of 24 ratio names, independent of all input values —
absent ratios appear as null values, never as missing keys. -/
theorem C9_compute_ratios_fixed_keys :
    (∀ (current : FinancialData) (previous : Option FinancialData)
      (is_annual : Bool),
      (compute_ratios current previous is_annual).map Prod.fst = ratioKeys) ∧
    ratioKeys.length = 24 ∧ ratioKeys.Nodup := by
  exact ⟨fun c p a => rfl, rfl, by decide⟩

/-! ## XBRL parser (`src/scrapers/utils/xbrl_parser.py`,
`parse_xbrl_financial_result`, lines 37-100) -/

/-- Heterogeneous values of the result dict of
`parse_xbrl_financial_result`. -/
inductive XVal where
  | s : String → XVal
  | d : Option PDate → XVal
  | b : Bool → XVal
  | num : ℚ → XVal
  | items : List (String × Option ℚ) → XVal
deriving DecidableEq

/-- `parse_xbrl_financial_result` (lines 61-100).  The call to
`lxml.etree.fromstring` at line 62 is external code and is modelled by its
outcome: `Except.error` when the byte string is not well-formed XML (lxml
raises `XMLSyntaxError`, caught at line 63), `Except.ok root` otherwise.
The successful branch (lines 67-100: contexts, facts, audited flag, nature)
operates on the parsed tree and is abstracted by the `buildResult`
parameter; the error branch returns the dict `{"error": str(e)}` of line 65
and consults nothing else. -/
def parse_xbrl_financial_result {Doc : Type}
    (fromstring : Except String Doc)
    (buildResult : Doc → List (String × XVal)) : List (String × XVal) :=
  match fromstring with
  | .error e => [("error", .s e)]
  | .ok root => buildResult root

/-- C10: whenever the XML parse of the document fails (every byte string
that is not well-formed XML), `parse_xbrl_financial_result` does not raise:
it returns the one-entry dict whose only key is "error", with no "items"
key and hence no extracted items, for every possible continuation of the
successful branch. -/
theorem C10_xbrl_malformed_returns_error_dict :
    ∀ (Doc : Type) (e : String) (buildResult : Doc → List (String × XVal)),
      parse_xbrl_financial_result (Except.error e) buildResult =
        [("error", XVal.s e)] ∧
      (parse_xbrl_financial_result (Except.error e) buildResult).map Prod.fst =
        ["error"] ∧
      (parse_xbrl_financial_result (Except.error e) buildResult).lookup "items" =
        none := by
  intro Doc e buildResult
  exact ⟨rfl, rfl, rfl⟩

/-! ## TTM engine (`src/engine/ttm.py`) and the statement store
(`src/db/models.py`) -/

inductive StatementType where
  | profit_loss | balance_sheet | cash_flow
deriving DecidableEq

inductive ResultNature where
  | standalone | consolidated
deriving DecidableEq

inductive PeriodType where
  | quarterly | half_yearly | nine_months | annual
deriving DecidableEq

/-- Day number of a date (shifted days-from-civil formula): strictly
monotone in calendar order on valid dates; models SQL date comparison and
day-difference arithmetic. -/
def rdN (dt : PDate) : ℕ :=
  let yy := if dt.m ≤ 2 then dt.y + 399 else dt.y + 400
  let era := yy / 400
  let yoe := yy % 400
  let mp := if 2 < dt.m then dt.m - 3 else dt.m + 9
  let doy := (153 * mp + 2) / 5 + dt.d - 1
  era * 146097 + (yoe * 365 + yoe / 4 - yoe / 100 + doy)

/-- A persisted statement: one `FinancialStatement` row together with its
`FinancialLineItem` rows as a field-name→value map (values nullable);
`_get_statement_items` of ttm.py lines 239-247 materializes exactly this
map. -/
structure FinancialStatement where
  company_id : ℕ
  statement_type : StatementType
  result_nature : ResultNature
  period_type : PeriodType
  period_end : PDate
  items : List (String × Option ℚ)

/-- Descending insertion by `period_end` (models `ORDER BY period_end
DESC`; ties keep their relative order, which the SQL leaves unspecified). -/
def insertDesc (s : FinancialStatement) :
    List FinancialStatement → List FinancialStatement
  | [] => [s]
  | t :: rest =>
    if rdN t.period_end < rdN s.period_end then s :: t :: rest
    else t :: insertDesc s rest

def sortDesc (l : List FinancialStatement) : List FinancialStatement :=
  l.foldr insertDesc []

/-- `FLOW_FIELDS` of ttm.py lines 30-52. -/
def FLOW_FIELDS : List String :=
  ["revenue", "other_income", "total_income", "raw_material_cost",
   "employee_cost", "total_expenses", "operating_profit", "depreciation",
   "interest_expense", "profit_before_exceptional", "exceptional_items",
   "profit_before_tax", "tax_expense", "net_profit",
   "cfo", "cfi", "cff", "net_cash_flow", "capex"]

/-- `STOCK_FIELDS` of ttm.py lines 55-81. -/
def STOCK_FIELDS : List String :=
  ["share_capital", "reserves_surplus", "total_equity", "minority_interest",
   "long_term_borrowings", "short_term_borrowings", "total_borrowings",
   "total_current_liabilities", "total_non_current_liabilities",
   "total_liabilities", "total_current_assets", "total_non_current_assets",
   "total_assets", "fixed_assets", "cwip", "intangible_assets",
   "investments", "non_current_investments", "current_investments",
   "inventory", "trade_receivables", "trade_payables",
   "cash_and_equivalents", "goodwill"]

/-- The five cash-flow fields of the fallback loop (ttm.py line 157). -/
def CF_FALLBACK_FIELDS : List String :=
  ["cfo", "cfi", "cff", "net_cash_flow", "capex"]

/-- `TTMCalculator._get_last_n_quarters` (ttm.py lines 180-210): the n most
recent quarterly statements of the given type/nature with period_end ≤
`before`, most recent first, as their item maps. -/
def _get_last_n_quarters (db : List FinancialStatement) (company_id n : ℕ)
    (before : PDate) (statement_type : StatementType)
    (result_nature : ResultNature) : List (List (String × Option ℚ)) :=
  ((sortDesc (db.filter (fun s =>
      s.company_id == company_id && s.statement_type == statement_type &&
      s.result_nature == result_nature &&
      s.period_type == PeriodType.quarterly &&
      (rdN s.period_end ≤ rdN before)))).take n).map (fun s => s.items)

/-- `TTMCalculator._get_latest_statement` (ttm.py lines 212-237). -/
def _get_latest_statement (db : List FinancialStatement) (company_id : ℕ)
    (before : PDate) (statement_type : StatementType)
    (result_nature : ResultNature) : Option (List (String × Option ℚ)) :=
  match sortDesc (db.filter (fun s =>
      s.company_id == company_id && s.statement_type == statement_type &&
      s.result_nature == result_nature &&
      (rdN s.period_end ≤ rdN before))) with
  | [] => none
  | s :: _ => some s.items

/-- One iteration of the flow-summation loop (ttm.py lines 130-132):
`ttm_data[f] = ttm_data.get(f, 0) + float(v)` for non-null flow values. -/
def flowStep (d : String → Option ℚ) (fv : String × Option ℚ) :
    String → Option ℚ :=
  if FLOW_FIELDS.contains fv.1 ∧ fv.2 ≠ none then
    fun f => if f = fv.1 then some ((d fv.1).getD 0 + fv.2.getD 0) else d f
  else d

/-- Lines 128-132: sum flow items of all quarters into the TTM dict
(initially empty). -/
def ttm_flow_sums (quarters : List (List (String × Option ℚ))) :
    String → Option ℚ :=
  quarters.foldl (fun d quarter => quarter.foldl flowStep d) (fun _ => none)

/-- One stock-field overwrite (ttm.py lines 143-145). -/
def stockStep (d : String → Option ℚ) (fv : String × Option ℚ) :
    String → Option ℚ :=
  if STOCK_FIELDS.contains fv.1 ∧ fv.2 ≠ none then
    fun f => if f = fv.1 then fv.2 else d f
  else d

/-- Lines 142-145: copy stock items of the latest balance sheet. -/
def apply_stock (latest_bs : Option (List (String × Option ℚ)))
    (d : String → Option ℚ) : String → Option ℚ :=
  match latest_bs with
  | none => d
  | some bs => bs.foldl stockStep d

/-- One iteration of the cash-flow fallback loop (ttm.py lines 157-160):
replace an absent-or-zero quarterly sum by the latest cash-flow
statement's non-null value. -/
def cfStep (cf : List (String × Option ℚ)) (d : String → Option ℚ)
    (field_name : String) : String → Option ℚ :=
  if d field_name = none ∨ d field_name = some 0 then
    match cf.lookup field_name with
    | some (some v) => fun f => if f = field_name then some v else d f
    | _ => d
  else d

/-- Lines 156-160. -/
def apply_cf_fallback (latest_cf : Option (List (String × Option ℚ)))
    (d : String → Option ℚ) : String → Option ℚ :=
  match latest_cf with
  | none => d
  | some cf => CF_FALLBACK_FIELDS.foldl (cfStep cf) d

/-- `sum(float(q.get(key, 0) or 0) for q in quarters)` (lines 164-167 and
171-174). -/
def quarter_eps (key : String)
    (quarters : List (List (String × Option ℚ))) : ℚ :=
  (quarters.map (fun q =>
    match q.lookup key with | some (some v) => v | _ => 0)).sum

/-- Lines 162-176: store the summed EPS values when non-zero. -/
def apply_eps (quarters : List (List (String × Option ℚ)))
    (d : String → Option ℚ) : String → Option ℚ :=
  let ttm_eps := quarter_eps "eps_basic" quarters
  let d1 : String → Option ℚ :=
    if ttm_eps ≠ 0 then fun f => if f = "eps_basic" then some ttm_eps else d f
    else d
  let ttm_eps_diluted := quarter_eps "eps_diluted" quarters
  if ttm_eps_diluted ≠ 0 then
    fun f => if f = "eps_diluted" then some ttm_eps_diluted else d1 f
  else d1

/-- The TTM dict built by `TTMCalculator.compute_ttm` (ttm.py lines
108-176) before conversion to `FinancialData`. -/
def ttm_data (db : List FinancialStatement) (company_id : ℕ)
    (as_of_date : PDate) (result_nature : ResultNature) : String → Option ℚ :=
  let quarters :=
    _get_last_n_quarters db company_id 4 as_of_date
      StatementType.profit_loss result_nature
  apply_eps quarters
    (apply_cf_fallback
      (_get_latest_statement db company_id as_of_date
        StatementType.cash_flow result_nature)
      (apply_stock
        (_get_latest_statement db company_id as_of_date
          StatementType.balance_sheet result_nature)
        (ttm_flow_sums quarters)))

/-- The per-field lookup of `FinancialData.from_dict` (ratios.py lines
119-128): the field's own key first, then the listed aliases, keeping the
first present value. -/
def from_dict_fetch (data : String → Option ℚ) (name : String) : Option ℚ :=
  match data name with
  | some v => some v
  | none =>
    let aliases : List String :=
      if name = "net_profit" then
        ["net_profit", "profit_for_period", "pat"]
      else if name = "total_equity" then
        ["total_equity", "shareholders_equity", "shareholder_funds"]
      else if name = "interest_expense" then
        ["interest_expense", "finance_costs", "interest"]
      else []
    match aliases.find? (fun a => (data a).isSome) with
    | some a => data a
    | none => none

/-- A fetched field value with the dataclass default 0.0 (lines 130-136:
fields with no value found are left to the dataclass defaults). -/
def from_dict_get (data : String → Option ℚ) (name : String) : ℚ :=
  (from_dict_fetch data name).getD 0

/-- `FinancialData.from_dict` (ratios.py lines 109-136): fetch each
dataclass field with alias fallback, default 0, then run `__post_init__`.
The dict is a total function to `Option ℚ` with `none` for an absent key
(the TTM dict never stores a null value, so absent and None coincide); the
derived `ebitda`/`ebit` fields are never keys of the dicts this
development feeds in (passing them would make the Python constructor
raise), so they are not fetched. -/
def FinancialData.from_dict (data : String → Option ℚ) : FinancialData :=
  FinancialData.postInit {
    revenue := from_dict_get data "revenue",
    other_income := from_dict_get data "other_income",
    total_income := from_dict_get data "total_income",
    raw_material_cost := from_dict_get data "raw_material_cost",
    employee_cost := from_dict_get data "employee_cost",
    total_expenses := from_dict_get data "total_expenses",
    operating_profit := from_dict_get data "operating_profit",
    depreciation := from_dict_get data "depreciation",
    interest_expense := from_dict_get data "interest_expense",
    profit_before_exceptional := from_dict_get data "profit_before_exceptional",
    exceptional_items := from_dict_get data "exceptional_items",
    profit_before_tax := from_dict_get data "profit_before_tax",
    tax_expense := from_dict_get data "tax_expense",
    net_profit := from_dict_get data "net_profit",
    eps_basic := from_dict_get data "eps_basic",
    eps_diluted := from_dict_get data "eps_diluted",
    share_capital := from_dict_get data "share_capital",
    reserves_surplus := from_dict_get data "reserves_surplus",
    total_equity := from_dict_get data "total_equity",
    minority_interest := from_dict_get data "minority_interest",
    long_term_borrowings := from_dict_get data "long_term_borrowings",
    short_term_borrowings := from_dict_get data "short_term_borrowings",
    total_borrowings := from_dict_get data "total_borrowings",
    total_current_liabilities := from_dict_get data "total_current_liabilities",
    total_non_current_liabilities := from_dict_get data "total_non_current_liabilities",
    total_liabilities := from_dict_get data "total_liabilities",
    total_current_assets := from_dict_get data "total_current_assets",
    total_non_current_assets := from_dict_get data "total_non_current_assets",
    total_assets := from_dict_get data "total_assets",
    fixed_assets := from_dict_get data "fixed_assets",
    cwip := from_dict_get data "cwip",
    intangible_assets := from_dict_get data "intangible_assets",
    investments := from_dict_get data "investments",
    non_current_investments := from_dict_get data "non_current_investments",
    current_investments := from_dict_get data "current_investments",
    inventory := from_dict_get data "inventory",
    trade_receivables := from_dict_get data "trade_receivables",
    trade_payables := from_dict_get data "trade_payables",
    cash_and_equivalents := from_dict_get data "cash_and_equivalents",
    goodwill := from_dict_get data "goodwill",
    cfo := from_dict_get data "cfo",
    cfi := from_dict_get data "cfi",
    cff := from_dict_get data "cff",
    net_cash_flow := from_dict_get data "net_cash_flow",
    capex := from_dict_get data "capex",
    current_price := from_dict_get data "current_price",
    shares_outstanding := from_dict_get data "shares_outstanding",
    face_value := from_dict_get data "face_value" }

/-- `TTMCalculator.compute_ttm` (ttm.py lines 90-178). -/
def compute_ttm (db : List FinancialStatement) (company_id : ℕ)
    (as_of_date : PDate) (result_nature : ResultNature) : FinancialData :=
  FinancialData.from_dict (ttm_data db company_id as_of_date result_nature)

/-- Modelled from the spec: "sum every flow field across the ≤4 most
recent quarterly profit-and-loss statements with period_end ≤ as_of_date
and matching nature, a field missing from a quarter counting as 0 for that
quarter". -/
def spec_ttm_flow (db : List FinancialStatement) (company_id : ℕ)
    (as_of_date : PDate) (result_nature : ResultNature) (f : String) : ℚ :=
  ((_get_last_n_quarters db company_id 4 as_of_date
      StatementType.profit_loss result_nature).map
    (fun q => match q.lookup f with | some (some v) => v | _ => 0)).sum

/-- Modelled from the spec: "copy each stock field directly from the
single most recent balance sheet" (0 when no balance sheet or no such
field, matching the dataclass default). -/
def spec_ttm_stock (db : List FinancialStatement) (company_id : ℕ)
    (as_of_date : PDate) (result_nature : ResultNature) (f : String) : ℚ :=
  match _get_latest_statement db company_id as_of_date
      StatementType.balance_sheet result_nature with
  | some bs => match bs.lookup f with | some (some v) => v | _ => 0
  | none => 0

/-! Dict-fold lemmas for the TTM computation. -/

/-- The (non-null) value of a field in one statement's item map, 0 when
absent or null. -/
def qval (q : List (String × Option ℚ)) (f : String) : ℚ :=
  match q.lookup f with | some (some v) => v | _ => 0

/-- Whether a field has a non-null value in one statement's item map. -/
def qpresent (q : List (String × Option ℚ)) (f : String) : Bool :=
  match q.lookup f with | some (some _) => true | _ => false

theorem qval_of_not_present {q : List (String × Option ℚ)} {f : String}
    (h : qpresent q f = false) : qval q f = 0 := by
  unfold qval
  unfold qpresent at h
  cases hl : q.lookup f with
  | none => rfl
  | some ov =>
    cases ov with
    | none => rfl
    | some v => rw [hl] at h; exact absurd h (by simp)

theorem flowStep_ne (d : String → Option ℚ) (fv : String × Option ℚ)
    (f : String) (h : f ≠ fv.1) : flowStep d fv f = d f := by
  unfold flowStep
  by_cases hc : FLOW_FIELDS.contains fv.1 ∧ fv.2 ≠ none
  · rw [if_pos hc]; exact if_neg h
  · rw [if_neg hc]

theorem flowStep_not_flow (d : String → Option ℚ) (fv : String × Option ℚ)
    (f : String) (hf : FLOW_FIELDS.contains f = false) :
    flowStep d fv f = d f := by
  by_cases he : f = fv.1
  · unfold flowStep
    rw [if_neg]
    rintro ⟨h1, -⟩
    rw [← he, hf] at h1
    exact Bool.false_ne_true h1
  · exact flowStep_ne d fv f he

theorem foldl_flowStep_not_mem (f : String) (q : List (String × Option ℚ)) :
    ∀ d : String → Option ℚ, (∀ p ∈ q, p.1 ≠ f) →
      (q.foldl flowStep d) f = d f := by
  induction q with
  | nil => intro d _; rfl
  | cons fv rest ih =>
    intro d h
    rw [List.foldl_cons,
      ih _ (fun p hp => h p (List.mem_cons_of_mem _ hp))]
    exact flowStep_ne d fv f (h fv (List.mem_cons_self _ _)).symm

theorem foldl_flowStep_not_flow (f : String)
    (hf : FLOW_FIELDS.contains f = false) (q : List (String × Option ℚ)) :
    ∀ d : String → Option ℚ, (q.foldl flowStep d) f = d f := by
  induction q with
  | nil => intro d; rfl
  | cons fv rest ih =>
    intro d
    rw [List.foldl_cons, ih _, flowStep_not_flow _ _ _ hf]

theorem foldl_flowStep_value (f : String)
    (hf : FLOW_FIELDS.contains f = true) (q : List (String × Option ℚ)) :
    ∀ d : String → Option ℚ, (q.map Prod.fst).Nodup →
      (q.foldl flowStep d) f =
        if qpresent q f then some ((d f).getD 0 + qval q f) else d f := by
  induction q with
  | nil => intro d _; rfl
  | cons fv rest ih =>
    obtain ⟨k, v⟩ := fv
    intro d hnd
    rw [List.map_cons, List.nodup_cons] at hnd
    obtain ⟨hk_not, hrest⟩ := hnd
    rw [List.foldl_cons]
    by_cases he : k = f
    · subst he
      have hrest_ne : ∀ p ∈ rest, p.1 ≠ k := by
        intro p hp hpk
        have hmem : p.1 ∈ rest.map Prod.fst := List.mem_map_of_mem Prod.fst hp
        rw [hpk] at hmem
        exact hk_not hmem
      rw [foldl_flowStep_not_mem k rest _ hrest_ne]
      cases v with
      | none =>
        have hstep : flowStep d (k, none) = d := by
          unfold flowStep
          rw [if_neg]
          rintro ⟨-, h2⟩
          exact h2 rfl
        rw [hstep]
        have hq : qpresent ((k, none) :: rest) k = false := by
          unfold qpresent
          simp [List.lookup]
        rw [hq, if_neg (by simp)]
      | some w =>
        have hstep : flowStep d (k, some w) k =
            some ((d k).getD 0 + w) := by
          unfold flowStep
          rw [if_pos ⟨hf, by simp⟩]
          simp
        have hq : qpresent ((k, some w) :: rest) k = true := by
          unfold qpresent
          simp [List.lookup]
        have hv : qval ((k, some w) :: rest) k = w := by
          unfold qval
          simp [List.lookup]
        rw [hstep, hq, hv, if_pos rfl]
    · rw [ih _ hrest]
      have hd' : flowStep d (k, v) f = d f :=
        flowStep_ne d (k, v) f (fun hc => he hc.symm)
      have hlook : ((k, v) :: rest).lookup f = rest.lookup f := by
        have hbeq : (f == k) = false := beq_eq_false_iff_ne.mpr (Ne.symm he)
        simp [List.lookup, hbeq]
      have hq : qpresent ((k, v) :: rest) f = qpresent rest f := by
        unfold qpresent; rw [hlook]
      have hv : qval ((k, v) :: rest) f = qval rest f := by
        unfold qval; rw [hlook]
      rw [hd', hq, hv]

theorem foldl_quarters_char (f : String)
    (hf : FLOW_FIELDS.contains f = true)
    (quarters : List (List (String × Option ℚ))) :
    ∀ d : String → Option ℚ,
      (∀ q ∈ quarters, (q.map Prod.fst).Nodup) →
      (quarters.foldl (fun d quarter => quarter.foldl flowStep d) d) f =
        if quarters.any (fun q => qpresent q f) then
          some ((d f).getD 0 + (quarters.map (fun q => qval q f)).sum)
        else d f := by
  induction quarters with
  | nil => intro d _; simp
  | cons q rest ih =>
    intro d hnd
    rw [List.foldl_cons]
    rw [ih _ (fun q' hq' => hnd q' (List.mem_cons_of_mem _ hq'))]
    have hq := foldl_flowStep_value f hf q d (hnd q (List.mem_cons_self _ _))
    by_cases hp : qpresent q f
    · rw [hq, if_pos hp]
      by_cases hr : rest.any (fun q' => qpresent q' f)
      · rw [if_pos hr, if_pos (by simp [List.any_cons, hp, hr])]
        simp only [Option.getD_some, List.map_cons, List.sum_cons]
        ring_nf
      · rw [if_neg hr, if_pos (by simp [List.any_cons, hp])]
        have hzero : (rest.map (fun q' => qval q' f)).sum = 0 := by
          refine List.sum_eq_zero ?_
          intro x hx
          obtain ⟨q', hq', rfl⟩ := List.mem_map.mp hx
          refine qval_of_not_present ?_
          rw [Bool.not_eq_true, List.any_eq_false] at hr
          exact Bool.eq_false_iff.mpr (hr q' hq')
        rw [List.map_cons, List.sum_cons, hzero]
        simp
    · have hp' : qpresent q f = false := Bool.eq_false_iff.mpr hp
      rw [hq, if_neg hp]
      have hqv : qval q f = 0 := qval_of_not_present hp'
      by_cases hr : rest.any (fun q' => qpresent q' f)
      · rw [if_pos hr, if_pos (by simp [List.any_cons, hr])]
        rw [List.map_cons, List.sum_cons, hqv, zero_add]
      · rw [if_neg hr, if_neg (by simp [List.any_cons, hp', hr])]

theorem ttm_flow_sums_char (f : String)
    (hf : FLOW_FIELDS.contains f = true)
    (quarters : List (List (String × Option ℚ)))
    (hnd : ∀ q ∈ quarters, (q.map Prod.fst).Nodup) :
    ttm_flow_sums quarters f =
      if quarters.any (fun q => qpresent q f) then
        some ((quarters.map (fun q => qval q f)).sum)
      else none := by
  unfold ttm_flow_sums
  rw [foldl_quarters_char f hf quarters _ hnd]
  by_cases hp : quarters.any (fun q => qpresent q f)
  · rw [if_pos hp, if_pos hp]
    simp
  · rw [if_neg hp, if_neg hp]

theorem ttm_flow_sums_not_flow (f : String)
    (hf : FLOW_FIELDS.contains f = false)
    (quarters : List (List (String × Option ℚ))) :
    ttm_flow_sums quarters f = none := by
  unfold ttm_flow_sums
  induction quarters with
  | nil => rfl
  | cons q rest ih =>
    rw [List.foldl_cons]
    have : ∀ (d : String → Option ℚ) (rest' : List (List (String × Option ℚ))),
        (rest'.foldl (fun d quarter => quarter.foldl flowStep d) d) f = d f := by
      intro d rest'
      induction rest' generalizing d with
      | nil => rfl
      | cons q' r' ih' =>
        rw [List.foldl_cons, ih', foldl_flowStep_not_flow f hf q' d]
    rw [this, foldl_flowStep_not_flow f hf q _]

theorem stockStep_ne (d : String → Option ℚ) (fv : String × Option ℚ)
    (f : String) (h : f ≠ fv.1) : stockStep d fv f = d f := by
  unfold stockStep
  by_cases hc : STOCK_FIELDS.contains fv.1 ∧ fv.2 ≠ none
  · rw [if_pos hc]; exact if_neg h
  · rw [if_neg hc]

theorem stockStep_not_stock (d : String → Option ℚ) (fv : String × Option ℚ)
    (f : String) (hf : STOCK_FIELDS.contains f = false) :
    stockStep d fv f = d f := by
  by_cases he : f = fv.1
  · unfold stockStep
    rw [if_neg]
    rintro ⟨h1, -⟩
    rw [← he, hf] at h1
    exact Bool.false_ne_true h1
  · exact stockStep_ne d fv f he

theorem foldl_stockStep_not_mem (f : String) (q : List (String × Option ℚ)) :
    ∀ d : String → Option ℚ, (∀ p ∈ q, p.1 ≠ f) →
      (q.foldl stockStep d) f = d f := by
  induction q with
  | nil => intro d _; rfl
  | cons fv rest ih =>
    intro d h
    rw [List.foldl_cons,
      ih _ (fun p hp => h p (List.mem_cons_of_mem _ hp))]
    exact stockStep_ne d fv f (h fv (List.mem_cons_self _ _)).symm

theorem apply_stock_not_stock (latest_bs : Option (List (String × Option ℚ)))
    (d : String → Option ℚ) (f : String)
    (hf : STOCK_FIELDS.contains f = false) :
    apply_stock latest_bs d f = d f := by
  cases latest_bs with
  | none => rfl
  | some bs =>
    show (bs.foldl stockStep d) f = d f
    induction bs generalizing d with
    | nil => rfl
    | cons fv rest ih =>
      rw [List.foldl_cons, ih, stockStep_not_stock _ _ _ hf]

theorem foldl_stockStep_value (f : String)
    (hf : STOCK_FIELDS.contains f = true) (q : List (String × Option ℚ)) :
    ∀ d : String → Option ℚ, (q.map Prod.fst).Nodup →
      (q.foldl stockStep d) f =
        if qpresent q f then some (qval q f) else d f := by
  induction q with
  | nil => intro d _; rfl
  | cons fv rest ih =>
    obtain ⟨k, v⟩ := fv
    intro d hnd
    rw [List.map_cons, List.nodup_cons] at hnd
    obtain ⟨hk_not, hrest⟩ := hnd
    rw [List.foldl_cons]
    by_cases he : k = f
    · subst he
      have hrest_ne : ∀ p ∈ rest, p.1 ≠ k := by
        intro p hp hpk
        have hmem : p.1 ∈ rest.map Prod.fst := List.mem_map_of_mem Prod.fst hp
        rw [hpk] at hmem
        exact hk_not hmem
      rw [foldl_stockStep_not_mem k rest _ hrest_ne]
      cases v with
      | none =>
        have hstep : stockStep d (k, none) = d := by
          unfold stockStep
          rw [if_neg]
          rintro ⟨-, h2⟩
          exact h2 rfl
        rw [hstep]
        have hq : qpresent ((k, none) :: rest) k = false := by
          unfold qpresent; simp [List.lookup]
        rw [hq, if_neg (by simp)]
      | some w =>
        have hstep : stockStep d (k, some w) k = some w := by
          unfold stockStep
          rw [if_pos ⟨hf, by simp⟩]
          simp
        have hq : qpresent ((k, some w) :: rest) k = true := by
          unfold qpresent; simp [List.lookup]
        have hv : qval ((k, some w) :: rest) k = w := by
          unfold qval; simp [List.lookup]
        rw [hstep, hq, hv, if_pos rfl]
    · rw [ih _ hrest]
      have hd' : stockStep d (k, v) f = d f :=
        stockStep_ne d (k, v) f (fun hc => he hc.symm)
      have hlook : ((k, v) :: rest).lookup f = rest.lookup f := by
        have hbeq : (f == k) = false := beq_eq_false_iff_ne.mpr (Ne.symm he)
        simp [List.lookup, hbeq]
      have hq : qpresent ((k, v) :: rest) f = qpresent rest f := by
        unfold qpresent; rw [hlook]
      have hv : qval ((k, v) :: rest) f = qval rest f := by
        unfold qval; rw [hlook]
      rw [hd', hq, hv]

theorem cfStep_ne (cf : List (String × Option ℚ)) (d : String → Option ℚ)
    (k f : String) (h : f ≠ k) : cfStep cf d k f = d f := by
  unfold cfStep
  by_cases hc : d k = none ∨ d k = some 0
  · rw [if_pos hc]
    cases hcf : cf.lookup k with
    | none => rfl
    | some ov =>
      cases ov with
      | none => rfl
      | some v => exact if_neg h
  · rw [if_neg hc]

theorem cfStep_eq (cf : List (String × Option ℚ)) (d : String → Option ℚ)
    (k : String) :
    cfStep cf d k k =
      if d k = none ∨ d k = some 0 then
        match cf.lookup k with
        | some (some v) => some v
        | _ => d k
      else d k := by
  unfold cfStep
  by_cases hc : d k = none ∨ d k = some 0
  · rw [if_pos hc, if_pos hc]
    cases hcf : cf.lookup k with
    | none => rfl
    | some ov =>
      cases ov with
      | none => rfl
      | some v => exact if_pos rfl
  · rw [if_neg hc, if_neg hc]

theorem foldl_cfStep_not_mem (cf : List (String × Option ℚ)) (f : String)
    (keys : List String) :
    ∀ d : String → Option ℚ, (∀ k ∈ keys, f ≠ k) →
      (keys.foldl (cfStep cf) d) f = d f := by
  induction keys with
  | nil => intro d _; rfl
  | cons k rest ih =>
    intro d h
    rw [List.foldl_cons,
      ih _ (fun k' hk' => h k' (List.mem_cons_of_mem _ hk'))]
    exact cfStep_ne cf d k f (h k (List.mem_cons_self _ _))

theorem apply_cf_fallback_not_mem
    (latest_cf : Option (List (String × Option ℚ)))
    (d : String → Option ℚ) (f : String)
    (h : ∀ k ∈ CF_FALLBACK_FIELDS, f ≠ k) :
    apply_cf_fallback latest_cf d f = d f := by
  cases latest_cf with
  | none => rfl
  | some cf => exact foldl_cfStep_not_mem cf f CF_FALLBACK_FIELDS d h

theorem apply_cf_fallback_cfo
    (latest_cf : Option (List (String × Option ℚ)))
    (d : String → Option ℚ) :
    apply_cf_fallback latest_cf d "cfo" =
      match latest_cf with
      | none => d "cfo"
      | some cf =>
        if d "cfo" = none ∨ d "cfo" = some 0 then
          match cf.lookup "cfo" with
          | some (some v) => some v
          | _ => d "cfo"
        else d "cfo" := by
  cases latest_cf with
  | none => rfl
  | some cf =>
    show (CF_FALLBACK_FIELDS.foldl (cfStep cf) d) "cfo" = _
    rw [show CF_FALLBACK_FIELDS =
      "cfo" :: ["cfi", "cff", "net_cash_flow", "capex"] from rfl]
    rw [List.foldl_cons]
    rw [foldl_cfStep_not_mem cf "cfo" _ _ (by decide)]
    have h1 := cfStep_eq cf d "cfo"
    by_cases hc : d "cfo" = none ∨ d "cfo" = some 0
    · rw [h1]
    · rw [h1]

theorem apply_eps_ne (quarters : List (List (String × Option ℚ)))
    (d : String → Option ℚ) (f : String)
    (h1 : f ≠ "eps_basic") (h2 : f ≠ "eps_diluted") :
    apply_eps quarters d f = d f := by
  simp only [apply_eps]
  split_ifs <;> simp [h1, h2]

theorem mem_insertDesc {x s : FinancialStatement}
    {l : List FinancialStatement} :
    x ∈ insertDesc s l ↔ x = s ∨ x ∈ l := by
  induction l with
  | nil => simp [insertDesc]
  | cons t rest ih =>
    unfold insertDesc
    by_cases hc : rdN t.period_end < rdN s.period_end
    · rw [if_pos hc]
      simp [List.mem_cons]
    · rw [if_neg hc]
      simp only [List.mem_cons, ih]
      tauto

theorem mem_sortDesc {x : FinancialStatement} {l : List FinancialStatement} :
    x ∈ sortDesc l ↔ x ∈ l := by
  induction l with
  | nil => simp [sortDesc]
  | cons s rest ih =>
    show x ∈ insertDesc s (sortDesc rest) ↔ _
    rw [mem_insertDesc]
    simp only [List.mem_cons, ih]

theorem mem_get_last_n_quarters {db : List FinancialStatement}
    {company_id n : ℕ} {before : PDate} {st : StatementType}
    {rn : ResultNature} {q : List (String × Option ℚ)} :
    q ∈ _get_last_n_quarters db company_id n before st rn →
      ∃ s ∈ db, s.items = q := by
  intro hq
  unfold _get_last_n_quarters at hq
  obtain ⟨s, hs, rfl⟩ := List.mem_map.mp hq
  have hs2 := List.take_subset _ _ hs
  rw [mem_sortDesc] at hs2
  exact ⟨s, (List.mem_filter.mp hs2).1, rfl⟩

theorem latest_statement_from_db {db : List FinancialStatement}
    {company_id : ℕ} {before : PDate} {st : StatementType}
    {rn : ResultNature} {items : List (String × Option ℚ)} :
    _get_latest_statement db company_id before st rn = some items →
      ∃ s ∈ db, s.items = items := by
  intro h
  unfold _get_latest_statement at h
  rcases hsort : sortDesc (db.filter (fun s =>
      s.company_id == company_id && s.statement_type == st &&
      s.result_nature == rn && (rdN s.period_end ≤ rdN before))) with
    _ | ⟨s, rest⟩
  · rw [hsort] at h; exact absurd h (by simp)
  · rw [hsort] at h
    have hsmem : s ∈ s :: rest := List.mem_cons_self _ _
    rw [← hsort, mem_sortDesc] at hsmem
    refine ⟨s, (List.mem_filter.mp hsmem).1, ?_⟩
    simpa using h

theorem quarters_nodup {db : List FinancialStatement} {cid : ℕ} {aod : PDate}
    {rn : ResultNature}
    (hnodup : ∀ s ∈ db, (s.items.map Prod.fst).Nodup) :
    ∀ q ∈ _get_last_n_quarters db cid 4 aod StatementType.profit_loss rn,
      (q.map Prod.fst).Nodup := by
  intro q hq
  obtain ⟨s, hs, rfl⟩ := mem_get_last_n_quarters hq
  exact hnodup s hs

theorem sum_qval_zero {quarters : List (List (String × Option ℚ))}
    {f : String}
    (hp : (quarters.any fun q => qpresent q f) = false) :
    (quarters.map (fun q => qval q f)).sum = 0 := by
  refine List.sum_eq_zero ?_
  intro x hx
  obtain ⟨q', hq', rfl⟩ := List.mem_map.mp hx
  rw [List.any_eq_false] at hp
  exact qval_of_not_present (Bool.eq_false_iff.mpr (hp q' hq'))

theorem ttm_data_flow_pl_getD (db : List FinancialStatement) (cid : ℕ)
    (aod : PDate) (rn : ResultNature)
    (hnodup : ∀ s ∈ db, (s.items.map Prod.fst).Nodup) (f : String)
    (hf : FLOW_FIELDS.contains f = true)
    (hstock : STOCK_FIELDS.contains f = false)
    (hcf : ∀ k ∈ CF_FALLBACK_FIELDS, f ≠ k)
    (h1 : f ≠ "eps_basic") (h2 : f ≠ "eps_diluted") :
    (ttm_data db cid aod rn f).getD 0 = spec_ttm_flow db cid aod rn f := by
  simp only [ttm_data]
  rw [apply_eps_ne _ _ _ h1 h2, apply_cf_fallback_not_mem _ _ _ hcf,
    apply_stock_not_stock _ _ _ hstock,
    ttm_flow_sums_char f hf _ (quarters_nodup hnodup)]
  by_cases hp : ((_get_last_n_quarters db cid 4 aod
      StatementType.profit_loss rn).any fun q => qpresent q f)
  · rw [if_pos hp, Option.getD_some]
    rfl
  · rw [if_neg hp]
    have hz := sum_qval_zero (f := f) (Bool.eq_false_iff.mpr hp)
    unfold spec_ttm_flow
    rw [show ((_get_last_n_quarters db cid 4 aod
        StatementType.profit_loss rn).map
        (fun q => match q.lookup f with | some (some v) => v | _ => 0)).sum =
      ((_get_last_n_quarters db cid 4 aod
        StatementType.profit_loss rn).map (fun q => qval q f)).sum from rfl]
    rw [hz]
    rfl

theorem ttm_data_none (db : List FinancialStatement) (cid : ℕ) (aod : PDate)
    (rn : ResultNature) (f : String)
    (h1 : FLOW_FIELDS.contains f = false)
    (h2 : STOCK_FIELDS.contains f = false)
    (h3 : ∀ k ∈ CF_FALLBACK_FIELDS, f ≠ k)
    (h4 : f ≠ "eps_basic") (h5 : f ≠ "eps_diluted") :
    ttm_data db cid aod rn f = none := by
  simp only [ttm_data]
  rw [apply_eps_ne _ _ _ h4 h5, apply_cf_fallback_not_mem _ _ _ h3,
    apply_stock_not_stock _ _ _ h2, ttm_flow_sums_not_flow f h1]

theorem ttm_data_stock_getD (db : List FinancialStatement) (cid : ℕ)
    (aod : PDate) (rn : ResultNature)
    (hnodup : ∀ s ∈ db, (s.items.map Prod.fst).Nodup) (f : String)
    (hflow : FLOW_FIELDS.contains f = false)
    (hstock : STOCK_FIELDS.contains f = true)
    (hcf : ∀ k ∈ CF_FALLBACK_FIELDS, f ≠ k)
    (h1 : f ≠ "eps_basic") (h2 : f ≠ "eps_diluted") :
    (ttm_data db cid aod rn f).getD 0 = spec_ttm_stock db cid aod rn f := by
  simp only [ttm_data]
  rw [apply_eps_ne _ _ _ h1 h2, apply_cf_fallback_not_mem _ _ _ hcf]
  cases hbs : _get_latest_statement db cid aod
      StatementType.balance_sheet rn with
  | none =>
    rw [show apply_stock none (ttm_flow_sums (_get_last_n_quarters db cid 4 aod
        StatementType.profit_loss rn)) = ttm_flow_sums (_get_last_n_quarters
        db cid 4 aod StatementType.profit_loss rn) from rfl]
    rw [ttm_flow_sums_not_flow f hflow]
    unfold spec_ttm_stock
    rw [hbs]
    rfl
  | some bs =>
    obtain ⟨s, hs, hitems⟩ := latest_statement_from_db hbs
    have hnd_bs : (bs.map Prod.fst).Nodup := hitems ▸ hnodup s hs
    rw [show apply_stock (some bs) (ttm_flow_sums (_get_last_n_quarters db cid
        4 aod StatementType.profit_loss rn)) = bs.foldl stockStep
        (ttm_flow_sums (_get_last_n_quarters db cid 4 aod
          StatementType.profit_loss rn)) from rfl]
    rw [foldl_stockStep_value f hstock bs _ hnd_bs]
    unfold spec_ttm_stock
    rw [hbs]
    by_cases hp : qpresent bs f
    · rw [if_pos hp, Option.getD_some]
      rfl
    · rw [if_neg hp, ttm_flow_sums_not_flow f hflow]
      exact (qval_of_not_present (Bool.eq_false_iff.mpr hp)).symm

theorem ttm_data_cfo_getD (db : List FinancialStatement) (cid : ℕ)
    (aod : PDate) (rn : ResultNature)
    (hnodup : ∀ s ∈ db, (s.items.map Prod.fst).Nodup) :
    (ttm_data db cid aod rn "cfo").getD 0 =
      if spec_ttm_flow db cid aod rn "cfo" = 0 then
        (match _get_latest_statement db cid aod
            StatementType.cash_flow rn with
         | some cf =>
           (match cf.lookup "cfo" with
            | some (some v) => v
            | _ => 0)
         | none => 0)
      else spec_ttm_flow db cid aod rn "cfo" := by
  simp only [ttm_data]
  rw [apply_eps_ne _ _ _ (by decide) (by decide), apply_cf_fallback_cfo,
    apply_stock_not_stock _ _ _ (by decide),
    ttm_flow_sums_char "cfo" (by decide) _ (quarters_nodup hnodup)]
  have hspec : spec_ttm_flow db cid aod rn "cfo" =
      ((_get_last_n_quarters db cid 4 aod
        StatementType.profit_loss rn).map (fun q => qval q "cfo")).sum := rfl
  rw [hspec]
  by_cases hp : ((_get_last_n_quarters db cid 4 aod
      StatementType.profit_loss rn).any fun q => qpresent q "cfo")
  · rw [if_pos hp]
    cases hcf : _get_latest_statement db cid aod
        StatementType.cash_flow rn with
    | none =>
      by_cases hs : ((_get_last_n_quarters db cid 4 aod
          StatementType.profit_loss rn).map (fun q => qval q "cfo")).sum = 0
      · rw [if_pos hs, Option.getD_some, hs]
      · rw [if_neg hs, Option.getD_some]
    | some cf =>
      dsimp only
      by_cases hs : ((_get_last_n_quarters db cid 4 aod
          StatementType.profit_loss rn).map (fun q => qval q "cfo")).sum = 0
      · rw [if_pos hs]
        rw [if_pos (Or.inr (by rw [hs]))]
        cases hl : cf.lookup "cfo" with
        | none => rw [Option.getD_some, hs]
        | some ov =>
          cases ov with
          | none => rw [Option.getD_some, hs]
          | some v => rw [Option.getD_some]
      · rw [if_neg hs]
        rw [if_neg (by
          rintro (hcontra | hcontra)
          · exact absurd hcontra (by simp)
          · rw [Option.some.injEq] at hcontra
            exact hs hcontra)]
        rw [Option.getD_some]
  · rw [if_neg hp]
    have hz := sum_qval_zero (f := "cfo") (Bool.eq_false_iff.mpr hp)
    rw [hz, if_pos rfl]
    cases hcf : _get_latest_statement db cid aod
        StatementType.cash_flow rn with
    | none => rfl
    | some cf =>
      dsimp only
      rw [if_pos (Or.inl rfl)]
      cases hl : cf.lookup "cfo" with
      | none => rfl
      | some ov =>
        cases ov with
        | none => rfl
        | some v => rw [Option.getD_some]

theorem from_dict_fetch_plain (data : String → Option ℚ) (name : String)
    (h1 : name ≠ "net_profit") (h2 : name ≠ "total_equity")
    (h3 : name ≠ "interest_expense") :
    from_dict_fetch data name = data name := by
  unfold from_dict_fetch
  cases hd : data name with
  | some v => rfl
  | none =>
    simp only [if_neg h1, if_neg h2, if_neg h3]
    rfl

theorem from_dict_fetch_net_profit (data : String → Option ℚ)
    (hpp : data "profit_for_period" = none) (hpat : data "pat" = none) :
    from_dict_fetch data "net_profit" = data "net_profit" := by
  unfold from_dict_fetch
  cases hd : data "net_profit" with
  | some v => rfl
  | none =>
    simp [List.find?, hd, hpp, hpat]

theorem compute_ttm_revenue (db : List FinancialStatement) (cid : ℕ)
    (aod : PDate) (rn : ResultNature)
    (hnodup : ∀ s ∈ db, (s.items.map Prod.fst).Nodup) :
    (compute_ttm db cid aod rn).revenue =
      spec_ttm_flow db cid aod rn "revenue" := by
  have hproj : (compute_ttm db cid aod rn).revenue =
      (from_dict_fetch (ttm_data db cid aod rn) "revenue").getD 0 := rfl
  rw [hproj, from_dict_fetch_plain _ _ (by decide) (by decide) (by decide)]
  exact ttm_data_flow_pl_getD db cid aod rn hnodup "revenue" (by decide)
    (by decide) (by decide) (by decide) (by decide)

theorem compute_ttm_net_profit (db : List FinancialStatement) (cid : ℕ)
    (aod : PDate) (rn : ResultNature)
    (hnodup : ∀ s ∈ db, (s.items.map Prod.fst).Nodup) :
    (compute_ttm db cid aod rn).net_profit =
      spec_ttm_flow db cid aod rn "net_profit" := by
  have hproj : (compute_ttm db cid aod rn).net_profit =
      (from_dict_fetch (ttm_data db cid aod rn) "net_profit").getD 0 := rfl
  rw [hproj, from_dict_fetch_net_profit _
    (ttm_data_none db cid aod rn "profit_for_period" (by decide) (by decide)
      (by decide) (by decide) (by decide))
    (ttm_data_none db cid aod rn "pat" (by decide) (by decide) (by decide)
      (by decide) (by decide))]
  exact ttm_data_flow_pl_getD db cid aod rn hnodup "net_profit" (by decide)
    (by decide) (by decide) (by decide) (by decide)

theorem compute_ttm_total_assets (db : List FinancialStatement) (cid : ℕ)
    (aod : PDate) (rn : ResultNature)
    (hnodup : ∀ s ∈ db, (s.items.map Prod.fst).Nodup) :
    (compute_ttm db cid aod rn).total_assets =
      spec_ttm_stock db cid aod rn "total_assets" := by
  have hproj : (compute_ttm db cid aod rn).total_assets =
      (from_dict_fetch (ttm_data db cid aod rn) "total_assets").getD 0 := rfl
  rw [hproj, from_dict_fetch_plain _ _ (by decide) (by decide) (by decide)]
  exact ttm_data_stock_getD db cid aod rn hnodup "total_assets" (by decide)
    (by decide) (by decide) (by decide) (by decide)

theorem compute_ttm_cfo (db : List FinancialStatement) (cid : ℕ)
    (aod : PDate) (rn : ResultNature)
    (hnodup : ∀ s ∈ db, (s.items.map Prod.fst).Nodup) :
    (compute_ttm db cid aod rn).cfo =
      if spec_ttm_flow db cid aod rn "cfo" = 0 then
        (match _get_latest_statement db cid aod
            StatementType.cash_flow rn with
         | some cf =>
           (match cf.lookup "cfo" with
            | some (some v) => v
            | _ => 0)
         | none => 0)
      else spec_ttm_flow db cid aod rn "cfo" := by
  have hproj : (compute_ttm db cid aod rn).cfo =
      (from_dict_fetch (ttm_data db cid aod rn) "cfo").getD 0 := rfl
  rw [hproj, from_dict_fetch_plain _ _ (by decide) (by decide) (by decide)]
  exact ttm_data_cfo_getD db cid aod rn hnodup

/-- A concrete statement store on which the quarterly cash-flow-from-operations
values sum to exactly 0, while a stored cash-flow statement carries cfo = 7:
the code's fallback loop (ttm.py lines 156-160) then overwrites the quarterly
sum, so plain summation does not describe `compute_ttm`. -/
def cexDB : List FinancialStatement :=
  [ { company_id := 1, statement_type := StatementType.profit_loss,
      result_nature := ResultNature.standalone,
      period_type := PeriodType.quarterly, period_end := ⟨2024, 6, 30⟩,
      items := [("revenue", some 100), ("cfo", some 5)] },
    { company_id := 1, statement_type := StatementType.profit_loss,
      result_nature := ResultNature.standalone,
      period_type := PeriodType.quarterly, period_end := ⟨2024, 3, 31⟩,
      items := [("revenue", some 110), ("cfo", some (-5))] },
    { company_id := 1, statement_type := StatementType.cash_flow,
      result_nature := ResultNature.standalone,
      period_type := PeriodType.annual, period_end := ⟨2024, 3, 31⟩,
      items := [("cfo", some 7)] } ]

/-- C1 (counterexample): The claim says TTM aggregation "sums each flow
field across the at most four most recent quarterly profit-and-loss
statements". For the flow field `cfo` this is false: on `cexDB` the quarterly
cfo values are 5 and -5, so the claimed sum is 0, but `compute_ttm` returns
7, the value taken from the latest cash-flow statement by the fallback of
ttm.py lines 156-160, which replaces a missing-or-zero quarterly sum. -/
theorem C1_ttm_flow_sum_refuted :
    spec_ttm_flow cexDB 1 ⟨2024, 7, 1⟩ ResultNature.standalone "cfo" = 0 ∧
    (compute_ttm cexDB 1 ⟨2024, 7, 1⟩ ResultNature.standalone).cfo = 7 ∧
    (7 : ℚ) ≠ 0 := by
  have hspec : spec_ttm_flow cexDB 1 ⟨2024, 7, 1⟩ ResultNature.standalone
      "cfo" = (5 : ℚ) + ((-5) + 0) := rfl
  have hspec0 : spec_ttm_flow cexDB 1 ⟨2024, 7, 1⟩ ResultNature.standalone
      "cfo" = 0 := by rw [hspec]; norm_num
  refine ⟨hspec0, ?_, by norm_num⟩
  rw [compute_ttm_cfo cexDB 1 ⟨2024, 7, 1⟩ ResultNature.standalone (by decide),
    if_pos hspec0]
  rfl

/-- C1 (amended claim): For every statement store whose per-statement
item maps have no duplicate field names: TTM flow fields `revenue` and
`net_profit` are the sums over the at most four most recent quarterly
profit-and-loss statements with period_end ≤ as_of_date and matching nature
(missing or null fields counting as 0), the stock field `total_assets` is
copied from the single most recent balance sheet, and the flow field `cfo`
is that quarterly sum only when it is nonzero; when the quarterly sum is 0
(in particular when no quarter carries cfo), it is replaced by the cfo value
of the most recent cash-flow statement, when one exists and has a non-null
cfo. -/
theorem C1_ttm_amended (db : List FinancialStatement) (cid : ℕ) (aod : PDate)
    (rn : ResultNature)
    (hnodup : ∀ s ∈ db, (s.items.map Prod.fst).Nodup) :
    (compute_ttm db cid aod rn).revenue =
      spec_ttm_flow db cid aod rn "revenue" ∧
    (compute_ttm db cid aod rn).net_profit =
      spec_ttm_flow db cid aod rn "net_profit" ∧
    (compute_ttm db cid aod rn).total_assets =
      spec_ttm_stock db cid aod rn "total_assets" ∧
    (compute_ttm db cid aod rn).cfo =
      (if spec_ttm_flow db cid aod rn "cfo" = 0 then
        (match _get_latest_statement db cid aod
            StatementType.cash_flow rn with
         | some cf =>
           (match cf.lookup "cfo" with
            | some (some v) => v
            | _ => 0)
         | none => 0)
      else spec_ttm_flow db cid aod rn "cfo") :=
  ⟨compute_ttm_revenue db cid aod rn hnodup,
   compute_ttm_net_profit db cid aod rn hnodup,
   compute_ttm_total_assets db cid aod rn hnodup,
   compute_ttm_cfo db cid aod rn hnodup⟩

/-- The example store of the claim: four quarterly profit-and-loss
statements with revenues 100, 110, 120, 130 and a balance sheet with
total_assets = 5000. -/
def exDB : List FinancialStatement :=
  [ { company_id := 1, statement_type := StatementType.profit_loss,
      result_nature := ResultNature.standalone,
      period_type := PeriodType.quarterly, period_end := ⟨2023, 6, 30⟩,
      items := [("revenue", some 100)] },
    { company_id := 1, statement_type := StatementType.profit_loss,
      result_nature := ResultNature.standalone,
      period_type := PeriodType.quarterly, period_end := ⟨2023, 9, 30⟩,
      items := [("revenue", some 110)] },
    { company_id := 1, statement_type := StatementType.profit_loss,
      result_nature := ResultNature.standalone,
      period_type := PeriodType.quarterly, period_end := ⟨2023, 12, 31⟩,
      items := [("revenue", some 120)] },
    { company_id := 1, statement_type := StatementType.profit_loss,
      result_nature := ResultNature.standalone,
      period_type := PeriodType.quarterly, period_end := ⟨2024, 3, 31⟩,
      items := [("revenue", some 130)] },
    { company_id := 1, statement_type := StatementType.balance_sheet,
      result_nature := ResultNature.standalone,
      period_type := PeriodType.annual, period_end := ⟨2024, 3, 31⟩,
      items := [("total_assets", some 5000)] } ]

/-- C1 (witness): The amended theorem instantiated at the claim's
example: quarterly revenues [100, 110, 120, 130] and a balance sheet
carrying total_assets = 5000 give TTM revenue 460 and TTM total_assets
5000. -/
theorem C1_ttm_amended_witness :
    (compute_ttm exDB 1 ⟨2024, 4, 1⟩ ResultNature.standalone).revenue =
      460 ∧
    (compute_ttm exDB 1 ⟨2024, 4, 1⟩ ResultNature.standalone).total_assets =
      5000 := by
  have h := C1_ttm_amended exDB 1 ⟨2024, 4, 1⟩ ResultNature.standalone
    (by decide)
  refine ⟨?_, ?_⟩
  · rw [h.1]
    have hs : spec_ttm_flow exDB 1 ⟨2024, 4, 1⟩ ResultNature.standalone
        "revenue" = (130 : ℚ) + (120 + (110 + (100 + 0))) := rfl
    rw [hs]; norm_num
  · rw [h.2.2.1]
    rfl

/-! ## YoY growth (`src/engine/growth.py`) -/

/-- The WHERE clause of `GrowthCalculator._get_field_value` (growth.py lines
241-253): same company, period type and nature, period_end between target
minus 45 days and target plus 45 days (inclusive), and a line-item row for
the field (possibly with a null value); the query does not constrain the
statement type. -/
def fieldCandidate (company_id : ℕ) (field_name : String) (target : PDate)
    (period_type : PeriodType) (result_nature : ResultNature)
    (s : FinancialStatement) : Bool :=
  s.company_id == company_id && s.period_type == period_type &&
  s.result_nature == result_nature &&
  (rdN target - 45 ≤ rdN s.period_end) &&
  (rdN s.period_end ≤ rdN target + 45) &&
  (s.items.lookup field_name).isSome

/-- `GrowthCalculator._get_field_value` (growth.py lines 226-258):
`ORDER BY period_end DESC LIMIT 1` over the candidates, so the row of the
latest in-window statement; a null stored value yields None
(`scalar_one_or_none`). -/
def _get_field_value (db : List FinancialStatement) (company_id : ℕ)
    (field_name : String) (period_end : PDate) (period_type : PeriodType)
    (result_nature : ResultNature) : Option ℚ :=
  match sortDesc (db.filter
      (fieldCandidate company_id field_name period_end period_type
        result_nature)) with
  | [] => none
  | s :: _ => (s.items.lookup field_name).getD none

/-- `GrowthCalculator.compute_yoy_growth` (growth.py lines 31-73):
previous period end is `period_end - relativedelta(years=1)`; None when
either value is absent or the previous value is 0; otherwise
`round(((cur - prev) / abs(prev)) * 100, 2)`. -/
def compute_yoy_growth (db : List FinancialStatement) (company_id : ℕ)
    (field_name : String) (period_end : PDate) (period_type : PeriodType)
    (result_nature : ResultNature) : Option ℚ :=
  match _get_field_value db company_id field_name period_end period_type
      result_nature with
  | none => none
  | some current_value =>
    match _get_field_value db company_id field_name (subYears period_end 1)
        period_type result_nature with
    | none => none
    | some previous_value =>
      if previous_value = 0 then none
      else some (round2
        ((current_value - previous_value) / |previous_value| * 100))

/-- Distance in days between two dates. -/
def dateDist (a b : PDate) : ℕ := Int.natAbs ((rdN a : ℤ) - (rdN b : ℤ))

/-- Modelled from the spec: "±45-day tolerance window, nearest match
preferred" — among the stored statements matching company, period type and
nature within the window that carry the field, take one whose period_end is
nearest to the target date. -/
def spec_get_field_value (db : List FinancialStatement) (company_id : ℕ)
    (field_name : String) (period_end : PDate) (period_type : PeriodType)
    (result_nature : ResultNature) : Option ℚ :=
  match (db.filter (fieldCandidate company_id field_name period_end
      period_type result_nature)).foldl
      (fun best s =>
        match best with
        | none => some s
        | some t =>
          if dateDist s.period_end period_end <
              dateDist t.period_end period_end then some s else some t)
      none with
  | none => none
  | some s => (s.items.lookup field_name).getD none

/-- Modelled from the spec: the YoY formula with the nearest-match
lookup. -/
def spec_yoy_growth (db : List FinancialStatement) (company_id : ℕ)
    (field_name : String) (period_end : PDate) (period_type : PeriodType)
    (result_nature : ResultNature) : Option ℚ :=
  match spec_get_field_value db company_id field_name period_end period_type
      result_nature with
  | none => none
  | some current_value =>
    match spec_get_field_value db company_id field_name
        (subYears period_end 1) period_type result_nature with
    | none => none
    | some previous_value =>
      if previous_value = 0 then none
      else some (round2
        ((current_value - previous_value) / |previous_value| * 100))

theorem headMax_insertDesc {x : FinancialStatement}
    {l : List FinancialStatement}
    (hl : ∀ s rest, l = s :: rest → ∀ t ∈ l,
      rdN t.period_end ≤ rdN s.period_end) :
    ∀ s rest, insertDesc x l = s :: rest → ∀ t ∈ insertDesc x l,
      rdN t.period_end ≤ rdN s.period_end := by
  cases l with
  | nil =>
    intro s rest hegq t ht
    rw [show insertDesc x [] = [x] from rfl] at hegq
    rw [mem_insertDesc] at ht
    injection hegq with h1 h2
    subst h1
    rcases ht with rfl | ht
    · exact le_refl _
    · cases ht
  | cons u us =>
    intro s rest hegq t ht
    rw [mem_insertDesc] at ht
    rw [insertDesc.eq_def] at hegq
    dsimp only at hegq
    by_cases hc : rdN u.period_end < rdN x.period_end
    · rw [if_pos hc] at hegq
      injection hegq with h1 h2
      subst h1
      rcases ht with rfl | ht
      · exact le_refl _
      · rcases List.mem_cons.mp ht with rfl | ht
        · exact le_of_lt hc
        · exact le_trans (hl u us rfl t (List.mem_cons_of_mem u ht))
            (le_of_lt hc)
    · rw [if_neg hc] at hegq
      injection hegq with h1 h2
      subst h1
      push_neg at hc
      rcases ht with rfl | ht
      · exact hc
      · exact hl u us rfl t ht

theorem headMax_sortDesc {l : List FinancialStatement} :
    ∀ s rest, sortDesc l = s :: rest → ∀ t ∈ l,
      rdN t.period_end ≤ rdN s.period_end := by
  induction l with
  | nil =>
    intro s rest h t ht
    cases ht
  | cons u us ih =>
    intro s rest h t ht
    have h' : insertDesc u (sortDesc us) = s :: rest := h
    have hmax : ∀ s' rest', sortDesc us = s' :: rest' →
        ∀ t' ∈ sortDesc us, rdN t'.period_end ≤ rdN s'.period_end := by
      intro s' rest' hh t' ht'
      exact ih s' rest' hh t' (mem_sortDesc.mp ht')
    refine headMax_insertDesc hmax s rest h' t ?_
    rw [mem_insertDesc]
    rcases List.mem_cons.mp ht with rfl | hmem
    · exact Or.inl rfl
    · exact Or.inr (mem_sortDesc.mpr hmem)

/-- `_get_field_value` either finds no candidate (and no stored statement
satisfies the WHERE clause) or returns the stored value of an in-window
candidate with MAXIMAL period_end. -/
theorem get_field_value_latest (db : List FinancialStatement)
    (company_id : ℕ) (field_name : String) (period_end : PDate)
    (period_type : PeriodType) (result_nature : ResultNature) :
    (_get_field_value db company_id field_name period_end period_type
        result_nature = none ∧
      ∀ s ∈ db, fieldCandidate company_id field_name period_end period_type
        result_nature s = false) ∨
    (∃ s ∈ db,
      fieldCandidate company_id field_name period_end period_type
        result_nature s = true ∧
      (∀ t ∈ db, fieldCandidate company_id field_name period_end period_type
          result_nature t = true →
        rdN t.period_end ≤ rdN s.period_end) ∧
      _get_field_value db company_id field_name period_end period_type
          result_nature =
        (s.items.lookup field_name).getD none) := by
  cases hsort : sortDesc (db.filter (fieldCandidate company_id field_name
      period_end period_type result_nature)) with
  | nil =>
    left
    constructor
    · unfold _get_field_value
      rw [hsort]
    · intro s hs
      by_contra hny
      rw [Bool.not_eq_false] at hny
      have hmem : s ∈ sortDesc (db.filter (fieldCandidate company_id
          field_name period_end period_type result_nature)) :=
        mem_sortDesc.mpr (List.mem_filter.mpr ⟨hs, hny⟩)
      rw [hsort] at hmem
      cases hmem
  | cons s rest =>
    right
    have hsmem : s ∈ db.filter (fieldCandidate company_id field_name
        period_end period_type result_nature) := by
      have hmem : s ∈ sortDesc (db.filter (fieldCandidate company_id
          field_name period_end period_type result_nature)) := by
        rw [hsort]
        exact List.mem_cons_self s rest
      exact mem_sortDesc.mp hmem
    obtain ⟨hsdb, hscand⟩ := List.mem_filter.mp hsmem
    refine ⟨s, hsdb, hscand, ?_, ?_⟩
    · intro t htdb htcand
      exact headMax_sortDesc s rest hsort t
        (List.mem_filter.mpr ⟨htdb, htcand⟩)
    · unfold _get_field_value
      rw [hsort]

/-- The statement store of the C3 counterexample: a current annual
statement at 2023-03-31 with revenue 110 and, around the previous-year
target 2022-03-31, two in-window annual statements: 2022-02-20 (39 days
away, revenue 100) and 2022-05-10 (40 days away, revenue 200). The code's
`ORDER BY period_end DESC LIMIT 1` picks 2022-05-10 although 2022-02-20 is
nearer. -/
def yoyDB : List FinancialStatement :=
  [ { company_id := 1, statement_type := StatementType.profit_loss,
      result_nature := ResultNature.consolidated,
      period_type := PeriodType.annual, period_end := ⟨2023, 3, 31⟩,
      items := [("revenue", some 110)] },
    { company_id := 1, statement_type := StatementType.profit_loss,
      result_nature := ResultNature.consolidated,
      period_type := PeriodType.annual, period_end := ⟨2022, 2, 20⟩,
      items := [("revenue", some 100)] },
    { company_id := 1, statement_type := StatementType.profit_loss,
      result_nature := ResultNature.consolidated,
      period_type := PeriodType.annual, period_end := ⟨2022, 5, 10⟩,
      items := [("revenue", some 200)] } ]

/-- C3 (counterexample): The claim says the ±45-day lookup prefers the
NEAREST match by date. The code instead takes the LATEST in-window
statement (`ORDER BY period_end DESC LIMIT 1`, growth.py lines 251-252):
on `yoyDB` the code uses previous revenue 200 from 2022-05-10 (40 days
from target) and returns -45.0, while the nearest match 2022-02-20 (39
days) would give previous revenue 100 and growth 10.0. -/
theorem C3_yoy_nearest_refuted :
    compute_yoy_growth yoyDB 1 "revenue" ⟨2023, 3, 31⟩ PeriodType.annual
      ResultNature.consolidated = some (-45) ∧
    spec_yoy_growth yoyDB 1 "revenue" ⟨2023, 3, 31⟩ PeriodType.annual
      ResultNature.consolidated = some 10 ∧
    (-45 : ℚ) ≠ 10 := by
  refine ⟨?_, ?_, by norm_num⟩
  · have h : compute_yoy_growth yoyDB 1 "revenue" ⟨2023, 3, 31⟩
        PeriodType.annual ResultNature.consolidated =
        some (round2 (((110 : ℚ) - 200) / |(200 : ℚ)| * 100)) := rfl
    rw [h, abs_of_pos (by norm_num : (0:ℚ) < 200)]
    norm_num [round2, pyRoundHalfEven]
  · have h : spec_yoy_growth yoyDB 1 "revenue" ⟨2023, 3, 31⟩
        PeriodType.annual ResultNature.consolidated =
        some (round2 (((110 : ℚ) - 100) / |(100 : ℚ)| * 100)) := rfl
    rw [h, abs_of_pos (by norm_num : (0:ℚ) < 100)]
    norm_num [round2, pyRoundHalfEven]

/-- C3 (amended claim): YoY growth computes
`round(((cur - prev) / abs(prev)) * 100, 2)` where both values come from
`_get_field_value`, the previous one at `period_end - relativedelta(years=1)`;
the result is null whenever the current value is absent or the previous
value is absent or zero. The ±45-day lookup, however, does not prefer the
nearest match: it returns the stored value of an in-window candidate with
MAXIMAL period_end (ORDER BY period_end DESC LIMIT 1), and null when no
stored statement satisfies the WHERE clause. -/
theorem C3_yoy_amended (db : List FinancialStatement) (company_id : ℕ)
    (field_name : String) (period_end : PDate) (period_type : PeriodType)
    (result_nature : ResultNature) :
    (∀ cur prev : ℚ,
      _get_field_value db company_id field_name period_end period_type
        result_nature = some cur →
      _get_field_value db company_id field_name (subYears period_end 1)
        period_type result_nature = some prev →
      prev ≠ 0 →
      compute_yoy_growth db company_id field_name period_end period_type
        result_nature = some (round2 ((cur - prev) / |prev| * 100))) ∧
    (_get_field_value db company_id field_name period_end period_type
        result_nature = none →
      compute_yoy_growth db company_id field_name period_end period_type
        result_nature = none) ∧
    (_get_field_value db company_id field_name (subYears period_end 1)
        period_type result_nature = none →
      compute_yoy_growth db company_id field_name period_end period_type
        result_nature = none) ∧
    (_get_field_value db company_id field_name (subYears period_end 1)
        period_type result_nature = some 0 →
      compute_yoy_growth db company_id field_name period_end period_type
        result_nature = none) ∧
    ((_get_field_value db company_id field_name period_end period_type
        result_nature = none ∧
      ∀ s ∈ db, fieldCandidate company_id field_name period_end period_type
        result_nature s = false) ∨
     (∃ s ∈ db,
       fieldCandidate company_id field_name period_end period_type
         result_nature s = true ∧
       (∀ t ∈ db, fieldCandidate company_id field_name period_end
           period_type result_nature t = true →
         rdN t.period_end ≤ rdN s.period_end) ∧
       _get_field_value db company_id field_name period_end period_type
           result_nature =
         (s.items.lookup field_name).getD none)) := by
  refine ⟨?_, ?_, ?_, ?_, get_field_value_latest db company_id field_name
    period_end period_type result_nature⟩
  · intro cur prev hc hp hne
    unfold compute_yoy_growth
    rw [hc, hp]
    dsimp only
    rw [if_neg hne]
  · intro h
    unfold compute_yoy_growth
    rw [h]
  · intro h
    unfold compute_yoy_growth
    cases hc : _get_field_value db company_id field_name period_end
        period_type result_nature with
    | none => rfl
    | some cur =>
      dsimp only
      rw [h]
  · intro h
    unfold compute_yoy_growth
    cases hc : _get_field_value db company_id field_name period_end
        period_type result_nature with
    | none => rfl
    | some cur =>
      dsimp only
      rw [h]
      dsimp only
      rw [if_pos rfl]

/-- The statement store of the C3 witness: annual revenues 110 at
2024-03-31 and 100 one year earlier. -/
def wDB : List FinancialStatement :=
  [ { company_id := 1, statement_type := StatementType.profit_loss,
      result_nature := ResultNature.consolidated,
      period_type := PeriodType.annual, period_end := ⟨2024, 3, 31⟩,
      items := [("revenue", some 110)] },
    { company_id := 1, statement_type := StatementType.profit_loss,
      result_nature := ResultNature.consolidated,
      period_type := PeriodType.annual, period_end := ⟨2023, 3, 31⟩,
      items := [("revenue", some 100)] } ]

/-- C3 (witness): the amended formula at a concrete store — revenue 110
against last year's 100 gives YoY growth 10.0. -/
theorem C3_yoy_amended_witness :
    compute_yoy_growth wDB 1 "revenue" ⟨2024, 3, 31⟩ PeriodType.annual
      ResultNature.consolidated = some 10 := by
  have h := (C3_yoy_amended wDB 1 "revenue" ⟨2024, 3, 31⟩ PeriodType.annual
    ResultNature.consolidated).1 110 100 rfl rfl (by norm_num)
  rw [h, abs_of_pos (by norm_num : (0:ℚ) < 100)]
  norm_num [round2, pyRoundHalfEven]

end StockScreener
